import Mathlib

/-!
Shallow embedding of the INTEARnear/trade-indexer event-detection engine.

Rust strings are modelled as `List Char` (`Str`); `u128` amounts as `Nat`
with explicit `2 ^ 128` bounds; `i128` values as `Int` with explicit
two's-complement wrapping where the source performs `as i128` casts or
release-mode wrapping arithmetic; `HashMap<AccountId, i128>` as an
insertion-ordered association list with unique keys (`AMap`), since the
source only compares maps up to key lookup.  Fallible operations return
`Option`.  Calls into the `handler` (the event sink) are modelled as an
ordered list of emitted `Event`s; a Rust `panic!` reachable through
`Option::unwrap` in the swap-log scanner makes the Ref detector return
`none`.

JSON deserialization of call arguments and of structured event logs is
performed by the external `serde_json` library in the source; it is
abstracted here as pre-parsed `Option` views attached to the inputs, one
per concrete Rust type the source tries to deserialize.  Everything else
(the free-text log grammars, account-id validation, numeric parsing,
correlation, relay resolution, aggregation, emission) is embedded
directly from the source.
-/

/-- Rust `str`/`String` contents, modelled as a list of characters. -/
abbrev Str := List Char

/-- Two's-complement wrap of an integer into the `i128` range, the result of
release-mode wrapping `i128` arithmetic. -/
def wrapI128 (z : Int) : Int :=
  (z + 2 ^ 127) % 2 ^ 128 - 2 ^ 127

/-- Rust `u128 as i128`: bitwise reinterpretation (two's complement). -/
def u128AsI128 (n : Nat) : Int :=
  if n < 2 ^ 127 then (n : Int) else (n : Int) - 2 ^ 128

/-- Rust `str::strip_prefix`: remove `p` from the front of `s` if present. -/
def stripStart? : Str → Str → Option Str
  | [], s => some s
  | _ :: _, [] => none
  | p :: ps, c :: cs => if p == c then stripStart? ps cs else none

/-- Rust `str::strip_suffix`: remove `p` from the end of `s` if present. -/
def stripEnd? (p s : Str) : Option Str :=
  if s.length < p.length then none
  else if s.drop (s.length - p.length) == p then some (s.take (s.length - p.length))
  else none

/-- Rust `str::split_once`: split `s` at the first occurrence of `sep`. -/
def splitOnce? (sep : Str) : Str → Option (Str × Str)
  | [] =>
    match stripStart? sep [] with
    | some r => some ([], r)
    | none => none
  | c :: cs =>
    match stripStart? sep (c :: cs) with
    | some r => some ([], r)
    | none =>
      match splitOnce? sep cs with
      | some (a, b) => some (c :: a, b)
      | none => none

/-- Iterated `splitOnce?` with fuel; `s.length + 1` fuel is enough for any
non-empty separator, matching Rust `str::split` on a string pattern. -/
def splitAllSepFuel (sep : Str) : Nat → Str → List Str
  | 0, s => [s]
  | fuel + 1, s =>
    match splitOnce? sep s with
    | none => [s]
    | some (a, b) => a :: splitAllSepFuel sep fuel b

/-- Rust `str::split` on a string pattern, collecting all pieces. -/
def splitAllSep (sep s : Str) : List Str :=
  splitAllSepFuel sep (s.length + 1) s

/-- Rust `s.split(c).next().unwrap()`: the piece of `s` before the first `c`
(the whole of `s` when `c` does not occur); total, never panics. -/
def beforeChar (c : Char) (s : Str) : Str :=
  match splitOnce? [c] s with
  | some (a, _) => a
  | none => s

/-- Decimal digit test used by Rust's `u128: FromStr`. -/
def isDigitCh (c : Char) : Bool := '0' ≤ c && c ≤ '9'

/-- Value of a decimal digit character. -/
def digitVal (c : Char) : Nat := c.toNat - 48

/-- Accumulate a decimal digit string into a natural number. -/
def digitsToNat (cs : Str) : Nat := cs.foldl (fun a c => a * 10 + digitVal c) 0

/-- Rust `str::parse::<u128>` (`FtBalance`/`Balance` parsing): an optional
leading `+`, then one or more decimal digits, value below `2 ^ 128`. -/
def parseU128 (cs : Str) : Option Nat :=
  let ds := match cs with
    | '+' :: rest => rest
    | _ => cs
  if !ds.isEmpty && ds.all isDigitCh then
    if digitsToNat ds < 2 ^ 128 then some (digitsToNat ds) else none
  else none

/-- Lowercase-alphanumeric test for NEAR account-id characters. -/
def isLowerAlnum (c : Char) : Bool := ('a' ≤ c && c ≤ 'z') || ('0' ≤ c && c ≤ '9')

/-- Scan the tail of an account-id part: every `-` or `_` must be surrounded
by lowercase alphanumerics, and the part must end in one. -/
def partGo (prev : Char) : Str → Bool
  | [] => isLowerAlnum prev
  | c :: rest => (isLowerAlnum c || ((c == '-' || c == '_') && isLowerAlnum prev)) && partGo c rest

/-- Validity of one dot-separated part of a NEAR account id. -/
def validPart : Str → Bool
  | [] => false
  | c :: rest => isLowerAlnum c && partGo c rest

/-- Rust `str::parse::<AccountId>` validity: length between 2 and 64 and
every dot-separated part well-formed. -/
def isValidAccountId (cs : Str) : Bool :=
  2 ≤ cs.length && cs.length ≤ 64 && (splitAllSep ['.'] cs).all validPart

/-- Rust `str::parse::<AccountId>`, returning the account id on success. -/
def parseAccountId (cs : Str) : Option String :=
  if isValidAccountId cs then some (String.mk cs) else none

/-- Insertion-ordered association list with unique keys, modelling
`HashMap<AccountId, i128>` (the source compares these maps only by key). -/
abbrev AMap := List (String × Int)

/-- Rust `HashMap::insert`: update the value in place or append a new entry. -/
def AMap.set : AMap → String → Int → AMap
  | [], k, v => [(k, v)]
  | (k', v') :: rest, k, v =>
    if k' == k then (k', v) :: rest else (k', v') :: AMap.set rest k v

/-- Lookup of a key's value in an `AMap`. -/
def AMap.get? : AMap → String → Option Int
  | [], _ => none
  | (k', v) :: rest, k => if k' == k then some v else AMap.get? rest k

/-- Rust `*map.entry(k).or_insert(0) += d` with release-mode wrapping `i128`
arithmetic. -/
def AMap.addDelta (m : AMap) (k : String) (d : Int) : AMap :=
  AMap.set m k (wrapI128 ((AMap.get? m k).getD 0 + d))

/-- Rust `map.retain(|_, v| *v != 0)`. -/
def AMap.retainNonzero (m : AMap) : AMap := m.filter (fun kv => kv.2 != 0)

/-- Rust `HashMap::from_iter([...])`: sequential inserts, later duplicate
keys overwriting earlier ones. -/
def fromIterPairs (ps : List (String × Int)) : AMap :=
  ps.foldl (fun m kv => AMap.set m kv.1 kv.2) []

/-- TradeContext from `lib.rs`: who traded, where and when. -/
structure TradeContext where
  trader : String
  block_height : Nat
  block_timestamp_nanosec : Nat
  transaction_id : String
  receipt_id : String
  deriving DecidableEq, Repr

/-- RawPoolSwap from `lib.rs`: one AMM hop. -/
structure RawPoolSwap where
  pool : String
  token_in : String
  token_out : String
  amount_in : Nat
  amount_out : Nat
  deriving DecidableEq, Repr

/-- BalanceChangeSwap from `lib.rs`: net per-token deltas plus the
contributing hops. -/
structure BalanceChangeSwap where
  balance_changes : AMap
  pool_swaps : List RawPoolSwap
  deriving DecidableEq, Repr

/-- AssetId from `intear_dex_types.rs`. -/
inductive AssetId where
  | near
  | nep141 (contract_id : String)
  | nep245 (contract_id : String) (token_id : String)
  | nep171 (contract_id : String) (token_id : String)
  deriving DecidableEq, Repr

/-- Typed pool snapshot (`PoolType` in `lib.rs`).  The protocol-specific
decoded pool state (a borsh-deserialized struct) is abstracted as an
identifying `Nat` handle, since no claim inspects its fields; the Veax pool
additionally names its token pair, which the source reads to build the pool
id. -/
inductive PoolType where
  | ref (pool : Nat)
  | aidols (token_id : String) (pool : Nat)
  | grafun (token_id : String) (pool : Nat)
  | veax (tokens : String × String) (pool : Nat)
  | intearPlach (pool : Nat)
  deriving DecidableEq, Repr

/-- PoolChangeEvent from `lib.rs`. -/
structure PoolChangeEvent where
  pool_id : String
  receipt_id : String
  block_timestamp_nanosec : Nat
  block_height : Nat
  pool : PoolType
  deriving DecidableEq, Repr

/-- One call into the `TradeEventHandler` sink.  `balanceChangeSwap` carries
the optional referrer passed by the adapters that call the three-argument
handler (aidols, intear); adapters calling the two-argument handler are
modelled with referrer `none`. -/
inductive Event where
  | rawPoolSwap (ctx : TradeContext) (swap : RawPoolSwap)
  | balanceChangeSwap (ctx : TradeContext) (bcs : BalanceChangeSwap) (referrer : Option String)
  | liquidityPool (ctx : TradeContext) (pool_id : String) (tokens : AMap)
  | poolChange (ev : PoolChangeEvent)
  deriving DecidableEq, Repr

/-- Whether an event is a swap event (`on_raw_pool_swap` or
`on_balance_change_swap`). -/
def Event.isSwapEv : Event → Bool
  | .rawPoolSwap _ _ => true
  | .balanceChangeSwap _ _ _ => true
  | _ => false

/-- Block header data used by the detectors. -/
structure BlockView where
  height : Nat
  timestamp_nanosec : Nat
  deriving DecidableEq, Repr

/-- Result of `serde_json::from_str` on the `msg` payload of an
`ft_transfer_call`, tried first as `FtTransferCallArgsExecute` (field
`actions`) and then as `FtTransferCallArgsHotZap` (field
`hot_zap_actions`); each successful parse yields the actions' pool ids. -/
structure FtMsgView where
  msgExecute : Option (List Nat)
  msgHotZap : Option (List Nat)
  deriving DecidableEq, Repr

/-- Results of `serde_json::from_slice` on a function call's `args` for each
Rust argument type the Ref detector tries; `swapArgs` is the `MethodSwap`
parse (actions' pool ids), `executeActions` the `MethodExecuteActions`
parse, `addLiquidity`/`removeLiquidity` the respective structs' `pool_id`.
`ftTransferCall` is the `FtTransferCallArgs` parse (its `msg` string's
sub-parses). -/
structure ActionArgs where
  ftTransferCall : Option FtMsgView
  swapArgs : Option (List Nat)
  executeActions : Option (List Nat)
  addLiquidity : Option Nat
  removeLiquidity : Option Nat
  deriving DecidableEq, Repr

/-- An action of a receipt: a function call (`ActionView::FunctionCall`)
with its method name and argument views, or any other action kind. -/
inductive ActionView where
  | functionCall (method_name : String) (args : ActionArgs)
  | other
  deriving DecidableEq, Repr

/-- View of a `TransactionReceipt`: outcome success flag, receiver and
predecessor accounts, the receipt's actions (`none` when the receipt is a
data receipt), the execution outcome's log lines, and the ids of the child
receipts the outcome spawned. -/
structure ReceiptView where
  receipt_id : String
  predecessor_id : String
  receiver_id : String
  is_successful : Bool
  actions : Option (List ActionView)
  logs : List String
  child_receipt_ids : List String
  deriving DecidableEq, Repr

/-- View of an `IncompleteTransaction`: its hash and its receipt map's
values (pending entries are `none`), in iteration order. -/
structure TransactionView where
  hash : String
  receipts : List (Option ReceiptView)
  deriving DecidableEq, Repr

/-- Scan the transaction's known receipts for the first one whose execution
outcome lists `rid` among its spawned receipt ids (the inline lookup in the
`ft_on_transfer` branch of `ref_trade_detection.rs`). -/
def findReceiptWithChild (tx : TransactionView) (rid : String) : Option ReceiptView :=
  (tx.receipts.filterMap id).find? (fun r => r.child_receipt_ids.contains rid)

/-- find_parent_receipt from `lib.rs`: the receipt of the transaction whose
outcome spawned `r`. -/
def find_parent_receipt (tx : TransactionView) (r : ReceiptView) : Option ReceiptView :=
  findReceiptWithChild tx r.receipt_id

/-- REF_CONTRACT_ID from `ref_trade_detection.rs`. -/
def REF_CONTRACT_ID : String := "v2.ref-finance.near"

/-- TESTNET_REF_CONTRACT_ID from `ref_trade_detection.rs`. -/
def TESTNET_REF_CONTRACT_ID : String := "ref-finance-101.testnet"

/-- create_ref_pool_id from `ref_trade_detection.rs`. -/
def create_ref_pool_id (pool_id : Nat) : String :=
  "REF-" ++ toString pool_id

/-- Build the `TradeContext` for a receipt, as `detect` does inline. -/
def mkCtx (trader : String) (block : BlockView) (txHash rid : String) : TradeContext :=
  ⟨trader, block.height, block.timestamp_nanosec, txHash, rid⟩

/-- Parse the amount list of a liquidity log line: each piece is
`"<amount> <token>"`, split at the first space, the amount a `u128` and the
token an account id; entries are inserted in order (duplicates overwrite).
`conv` is the source's conversion of the parsed `u128` into the stored
`i128` (a wrapping cast, negated for removals); `none` models the `return`
the source takes on a malformed piece. -/
def parseAmountsGo (conv : Nat → Int) (m : AMap) : List Str → Option AMap
  | [] => some m
  | a :: rest =>
    match splitOnce? [' '] a with
    | none => none
    | some (amt, tok) =>
      match parseU128 amt with
      | none => none
      | some v =>
        match parseAccountId tok with
        | none => none
        | some t => parseAmountsGo conv (AMap.set m t (conv v)) rest

/-- Parse one `add_liquidity` log line, grammar
`Liquidity added ["<amt> <token>", ...], minted <shares> shares`; `none`
models the `return` the source takes when the line does not parse. -/
def parseLiquidityAdded (log : Str) : Option AMap :=
  match stripStart? "Liquidity added [\"".data log with
  | none => none
  | some l1 =>
    match stripEnd? " shares".data l1 with
    | none => none
    | some l2 =>
      match splitOnce? "\"], minted ".data l2 with
      | none => none
      | some (amounts, shares) =>
        if (parseU128 shares).isSome then
          parseAmountsGo (fun v => u128AsI128 v) [] (splitAllSep "\", \"".data amounts)
        else none

/-- Parse one `remove_liquidity` log line, grammar
`<shares> shares of liquidity removed: receive back ["<amt> <token>", ...]`;
amounts are negated (`-(amount as i128)`, wrapping). -/
def parseLiquidityRemoved (log : Str) : Option AMap :=
  match splitOnce? " shares of liquidity removed: receive back [\"".data log with
  | none => none
  | some (shares, toks) =>
    if (parseU128 shares).isSome then
      match stripEnd? "\"]".data toks with
      | none => none
      | some t2 =>
        parseAmountsGo (fun v => wrapI128 (-(u128AsI128 v))) [] (splitAllSep "\", \"".data t2)
    else none

/-- Run a liquidity branch over the receipt's log lines in order: each line
that parses emits one `on_liquidity_pool` event; the first line that does
not parse sets the early-return flag (the source's `return`), keeping the
events already emitted and dropping the rest. -/
def runLiquidityLogs (parse : Str → Option AMap) (ctx : TradeContext) (pid : Nat) :
    List String → List Event × Bool
  | [] => ([], false)
  | log :: rest =>
    match parse log.data with
    | none => ([], true)
    | some m =>
      let p := runLiquidityLogs parse ctx pid rest
      (Event.liquidityPool ctx (create_ref_pool_id pid) m :: p.1, p.2)

/-- One observed hop parsed from a `Swapped`/`Swap_by_output` log line. -/
structure SwapHop where
  token_in : String
  token_out : String
  amount_in : Nat
  amount_out : Nat
  deriving DecidableEq, Repr

/-- Strip the `Swapped ` arm or, failing that, the `Swap_by_output ` arm
(the or-pattern at the top of the swap-log scan). -/
def swapLogBody? (log : Str) : Option Str :=
  match stripStart? "Swapped ".data log with
  | some l => some l
  | none => stripStart? "Swap_by_output ".data log

/-- Outcome of scanning one log line for the swap grammar: no match (the
line is ignored), a parsed hop, or a panic (the source calls
`split_once(' ').unwrap()` on a fragment with no space). -/
inductive LogParse where
  | panicked
  | noMatch
  | hop (h : SwapHop)
  deriving DecidableEq, Repr

/-- Scan one log line for the grammar
`Swapped <amount> <token> for <amount> <token>[, ...]` (or the
`Swap_by_output ` arm): split at `" for "`, keep the out-fragment before the
first comma, split each fragment at its first space (panicking like the
source if there is none), then parse the amounts as `u128` and the tokens
as account ids; any parse failure skips the line. -/
def parseSwapLog (log : Str) : LogParse :=
  match swapLogBody? log with
  | none => .noMatch
  | some l =>
    match splitOnce? " for ".data l with
    | none => .noMatch
    | some (tinPart, toutPart) =>
      match splitOnce? [' '] tinPart, splitOnce? [' '] (beforeChar ',' toutPart) with
      | some (ain, tin), some (aout, tout) =>
        match parseAccountId tin, parseAccountId tout, parseU128 ain, parseU128 aout with
        | some tin', some tout', some a, some b => .hop ⟨tin', tout', a, b⟩
        | _, _, _, _ => .noMatch
      | _, _ => .panicked

/-- Collect the observed hops of all log lines in order; `none` when some
line makes the scanner panic. -/
def collectSwapHops : List String → Option (List SwapHop)
  | [] => some []
  | log :: rest =>
    match parseSwapLog log.data with
    | .panicked => none
    | .noMatch => collectSwapHops rest
    | .hop h => (collectSwapHops rest).map (fun hs => h :: hs)

/-- The `balance_changes` accumulator of the swap-log scan: per hop,
subtract `amount_in as i128` from the in-token's entry and add
`amount_out as i128` to the out-token's entry (wrapping casts and wrapping
`i128` arithmetic). -/
def balanceChangesOfHops (hops : List SwapHop) : AMap :=
  hops.foldl
    (fun m h =>
      AMap.addDelta (AMap.addDelta m h.token_in (-(u128AsI128 h.amount_in)))
        h.token_out (u128AsI128 h.amount_out))
    []

/-- Mutable state threaded through the Ref detector's action loop. -/
structure ActionState where
  trader : String
  pools : List Nat
  events : List Event
  earlyReturn : Bool
  deriving DecidableEq, Repr

/-- Process one action of the Ref detector's action loop (the method-name
dispatch in `ref_trade_detection.rs`). -/
def refProcessOneAction (receipt : ReceiptView) (tx : TransactionView) (block : BlockView)
    (a : ActionView) (st : ActionState) : ActionState :=
  match a with
  | .other => st
  | .functionCall m args =>
    if m == "ft_on_transfer" then
      let trader' := match findReceiptWithChild tx receipt.receipt_id with
        | some caller => caller.predecessor_id
        | none => st.trader
      let newPools := match args.ftTransferCall with
        | some msg =>
          match msg.msgExecute with
          | some acts => acts
          | none =>
            match msg.msgHotZap with
            | some acts => acts
            | none => []
        | none => []
      { st with trader := trader', pools := st.pools ++ newPools }
    else if m == "swap" then
      { st with pools := st.pools ++ (args.swapArgs.getD []) }
    else if m == "swap_by_output" then
      { st with pools := st.pools ++ (args.swapArgs.getD []) }
    else if m == "execute_actions" then
      { st with pools := st.pools ++ (args.executeActions.getD []) }
    else if m == "add_liquidity" then
      match args.addLiquidity with
      | some pid =>
        let p := runLiquidityLogs parseLiquidityAdded
          (mkCtx st.trader block tx.hash receipt.receipt_id) pid receipt.logs
        { st with events := st.events ++ p.1, earlyReturn := p.2 }
      | none => st
    else if m == "remove_liquidity" then
      match args.removeLiquidity with
      | some pid =>
        let p := runLiquidityLogs parseLiquidityRemoved
          (mkCtx st.trader block tx.hash receipt.receipt_id) pid receipt.logs
        { st with events := st.events ++ p.1, earlyReturn := p.2 }
      | none => st
    else st

/-- Process the action list in order, stopping at the first action that set
the early-return flag (the source's `return` aborts the whole `detect`). -/
def refProcessActions (receipt : ReceiptView) (tx : TransactionView) (block : BlockView) :
    List ActionView → ActionState → ActionState
  | [], st => st
  | a :: rest, st =>
    let st' := refProcessOneAction receipt tx block a st
    if st'.earlyReturn then st' else refProcessActions receipt tx block rest st'

/-- The state after the Ref detector's action loop: trader initialised to
the receipt's predecessor, then updated by the loop (data receipts have no
actions and leave the state untouched). -/
def refActionState (receipt : ReceiptView) (tx : TransactionView) (block : BlockView) :
    ActionState :=
  let st0 : ActionState := ⟨receipt.predecessor_id, [], [], false⟩
  match receipt.actions with
  | some acts => refProcessActions receipt tx block acts st0
  | none => st0

/-- Relay resolution: a trader equal to `ref.hot.tg` is replaced by the
predecessor of the grandparent receipt; `none` when either parent lookup
fails (the source logs and returns). -/
def refResolveTrader (tx : TransactionView) (receipt : ReceiptView) (trader : String) :
    Option String :=
  if trader == "ref.hot.tg" then
    match find_parent_receipt tx receipt with
    | some parent =>
      match find_parent_receipt tx parent with
      | some grandparent => some grandparent.predecessor_id
      | none => none
    | none => none
  else some trader

/-- Pair intended pools with observed hops positionally: pool id from the
intended hop, tokens and amounts from the observed hop. -/
def correlate (pools : List Nat) (hops : List SwapHop) : List RawPoolSwap :=
  (pools.zip hops).map fun ph =>
    ⟨create_ref_pool_id ph.1, ph.2.token_in, ph.2.token_out, ph.2.amount_in, ph.2.amount_out⟩

/-- Emission tail of the Ref detector, after correlation: on a length
mismatch or an empty hop list return only the events already emitted;
otherwise emit one `RawPoolSwap` per hop and, when the zero-pruned delta
map is non-empty, one `BalanceChangeSwap`. -/
def refEmission (st : ActionState) (trader : String) (hops : List SwapHop)
    (block : BlockView) (txHash rid : String) : List Event :=
  if st.pools.length = hops.length then
    let raws := correlate st.pools hops
    if raws.isEmpty then st.events
    else
      let ctx := mkCtx trader block txHash rid
      let deltas := AMap.retainNonzero (balanceChangesOfHops hops)
      st.events ++ raws.map (Event.rawPoolSwap ctx) ++
        (if deltas.isEmpty then [] else [Event.balanceChangeSwap ctx ⟨deltas, raws⟩ none])
  else st.events

/-- detect from `ref_trade_detection.rs`: the full per-receipt Ref pipeline.
`none` models the panic reachable in the swap-log scan; otherwise the value
is the ordered list of handler calls. -/
def refDetect (receipt : ReceiptView) (tx : TransactionView) (block : BlockView)
    (is_testnet : Bool) : Option (List Event) :=
  let ref_contract_id := if is_testnet then TESTNET_REF_CONTRACT_ID else REF_CONTRACT_ID
  if receipt.is_successful && receipt.receiver_id == ref_contract_id then
    let st := refActionState receipt tx block
    if st.earlyReturn then some st.events
    else
      match refResolveTrader tx receipt st.trader with
      | none => some st.events
      | some trader =>
        match collectSwapHops receipt.logs with
        | none => none
        | some hops => some (refEmission st trader hops block tx.hash receipt.receipt_id)
  else some []

/-- Receipt view for the log-native adapters: success flag, receiver, and
the per-log results of the adapter's structured-log deserialization
(`EventLogData::deserialize`), abstracted per log line. -/
structure LogReceiptView (α : Type) where
  receipt_id : String
  receiver_id : String
  is_successful : Bool
  parsed_logs : List α
  deriving DecidableEq, Repr

/-- Wrapper of `EventLogData<T>`: the NEP-297 standard, version and event
name plus the typed payload. -/
structure EventLogView (α : Type) where
  standard : String
  version : String
  event : String
  data : α
  deriving DecidableEq, Repr

/-- REFDCL_CONTRACT_ID from `refdcl_trade_detection.rs`. -/
def REFDCL_CONTRACT_ID : String := "dclv2.ref-labs.near"

/-- create_refdcl_pool_id from `refdcl_trade_detection.rs`. -/
def create_refdcl_pool_id (pool_id : String) : String :=
  "REFDCL-" ++ pool_id

/-- SwapEvent from `refdcl_trade_detection.rs` (dcl.ref `swap` payload). -/
structure RefDclSwapEvent where
  amount_in : Nat
  amount_out : Nat
  pool_id : String
  protocol_fee : Nat
  swapper : String
  token_in : String
  token_out : String
  total_fee : Nat
  deriving DecidableEq, Repr

/-- detect from `refdcl_trade_detection.rs`: for every log line that parses
as a `dcl.ref`/`swap` event list, emit per swap one `RawPoolSwap` and one
`BalanceChangeSwap` whose two-entry delta map is built by direct insertion
(`HashMap::from_iter`) from the wrapping casts of the amounts. -/
def refdclDetect (receipt : LogReceiptView (Option (EventLogView (List RefDclSwapEvent))))
    (txHash : String) (block : BlockView) (is_testnet : Bool) : List Event :=
  if is_testnet then []
  else if receipt.is_successful && receipt.receiver_id == REFDCL_CONTRACT_ID then
    receipt.parsed_logs.flatMap fun optLog =>
      match optLog with
      | some ev =>
        if ev.event == "swap" && ev.standard == "dcl.ref" then
          ev.data.flatMap fun swap =>
            let context := mkCtx swap.swapper block txHash receipt.receipt_id
            let leg : RawPoolSwap :=
              ⟨create_refdcl_pool_id swap.pool_id, swap.token_in, swap.token_out,
                swap.amount_in, swap.amount_out⟩
            [Event.rawPoolSwap context leg,
             Event.balanceChangeSwap context
               ⟨fromIterPairs
                  [(swap.token_in, wrapI128 (-(u128AsI128 swap.amount_in))),
                   (swap.token_out, u128AsI128 swap.amount_out)],
                [leg]⟩ none]
        else []
      | none => []
  else []

/-- VEAX_CONTRACT_ID from `veax_trade_detection.rs`. -/
def VEAX_CONTRACT_ID : String := "veax.near"

/-- create_veax_pool_id from `veax_state.rs`. -/
def create_veax_pool_id (tokens : String × String) : String :=
  "VEAX-" ++ tokens.1 ++ "-" ++ tokens.2

/-- SwapEvent from `veax_trade_detection.rs`: trader, (in, out) token pair
and (in, out) amount pair. -/
structure VeaxSwapEvent where
  user : String
  tokens : String × String
  amounts : Nat × Nat
  deriving DecidableEq, Repr

/-- detect from `veax_trade_detection.rs`: for every log line that parses
as a `veax`/`swap` event, emit one `RawPoolSwap` and one
`BalanceChangeSwap` built from the wrapping casts of the two amounts. -/
def veaxDetect (receipt : LogReceiptView (Option (EventLogView VeaxSwapEvent)))
    (txHash : String) (block : BlockView) (is_testnet : Bool) : List Event :=
  if is_testnet then []
  else if receipt.is_successful && receipt.receiver_id == VEAX_CONTRACT_ID then
    receipt.parsed_logs.flatMap fun optLog =>
      match optLog with
      | some ev =>
        if ev.event == "swap" && ev.standard == "veax" then
          let context := mkCtx ev.data.user block txHash receipt.receipt_id
          let leg : RawPoolSwap :=
            ⟨create_veax_pool_id ev.data.tokens, ev.data.tokens.1, ev.data.tokens.2,
              ev.data.amounts.1, ev.data.amounts.2⟩
          [Event.rawPoolSwap context leg,
           Event.balanceChangeSwap context
             ⟨fromIterPairs
                [(ev.data.tokens.1, wrapI128 (-(u128AsI128 ev.data.amounts.1))),
                 (ev.data.tokens.2, u128AsI128 ev.data.amounts.2)],
              [leg]⟩ none]
        else []
      | none => []
  else []

/-- AIDOLS_CONTRACT_ID from `aidols_trade_detection.rs`. -/
def AIDOLS_CONTRACT_ID : String := "aidols.near"

/-- create_aidols_pool_id from `aidols_trade_detection.rs`. -/
def create_aidols_pool_id (token_id : String) : String :=
  "AIDOLS-" ++ token_id

/-- SwapEvent from `aidols_trade_detection.rs`. -/
structure AidolsSwapEvent where
  input_amount : Nat
  input_token : String
  output_amount : Nat
  output_token : String
  referral_id : Option String
  token_hold : Nat
  user_id : String
  wnear_commission : Nat
  wnear_hold : Nat
  deriving DecidableEq, Repr

/-- detect from `aidols_trade_detection.rs`: for every log line that parses
as a `token_swap` event list (no standard check), emit per swap one
`RawPoolSwap` and one `BalanceChangeSwap` (with the swap's referral id);
the pool is keyed by the non-`wrap.near` side of the pair. -/
def aidolsDetect (receipt : LogReceiptView (Option (EventLogView (List AidolsSwapEvent))))
    (txHash : String) (block : BlockView) (is_testnet : Bool) : List Event :=
  if is_testnet then []
  else if receipt.is_successful && receipt.receiver_id == AIDOLS_CONTRACT_ID then
    receipt.parsed_logs.flatMap fun optLog =>
      match optLog with
      | some ev =>
        if ev.event == "token_swap" then
          ev.data.flatMap fun swap =>
            let context := mkCtx swap.user_id block txHash receipt.receipt_id
            let token := if swap.input_token == "wrap.near" then swap.output_token
              else swap.input_token
            let leg : RawPoolSwap :=
              ⟨create_aidols_pool_id token, swap.input_token, swap.output_token,
                swap.input_amount, swap.output_amount⟩
            [Event.rawPoolSwap context leg,
             Event.balanceChangeSwap context
               ⟨fromIterPairs
                  [(swap.input_token, wrapI128 (-(u128AsI128 swap.input_amount))),
                   (swap.output_token, u128AsI128 swap.output_amount)],
                [leg]⟩ swap.referral_id]
        else []
      | none => []
  else []

/-- GRAFUN_CONTRACT_ID from `grafun_trade_detection.rs`. -/
def GRAFUN_CONTRACT_ID : String := "gra-fun.near"

/-- create_grafun_pool_id from `grafun_trade_detection.rs`. -/
def create_grafun_pool_id (token_id : String) : String :=
  "GRAFUN-" ++ token_id

/-- SwapEvent from `grafun_trade_detection.rs`. -/
structure GraFunSwapEvent where
  end_price : Nat
  input_amount : Nat
  input_token : String
  near_reserve : Nat
  near_usdt_price : Nat
  output_amount : Nat
  output_token : String
  refferal_id : Option String
  start_price : Nat
  token_reserve : Nat
  user_id : String
  wnear_commission : Nat
  deriving DecidableEq, Repr

/-- detect from `grafun_trade_detection.rs`: like the AIdols detector but
for `gra-fun.near` and with no referrer forwarded. -/
def grafunDetect (receipt : LogReceiptView (Option (EventLogView (List GraFunSwapEvent))))
    (txHash : String) (block : BlockView) (is_testnet : Bool) : List Event :=
  if is_testnet then []
  else if receipt.is_successful && receipt.receiver_id == GRAFUN_CONTRACT_ID then
    receipt.parsed_logs.flatMap fun optLog =>
      match optLog with
      | some ev =>
        if ev.event == "token_swap" then
          ev.data.flatMap fun swap =>
            let context := mkCtx swap.user_id block txHash receipt.receipt_id
            let token := if swap.input_token == "wrap.near" then swap.output_token
              else swap.input_token
            let leg : RawPoolSwap :=
              ⟨create_grafun_pool_id token, swap.input_token, swap.output_token,
                swap.input_amount, swap.output_amount⟩
            [Event.rawPoolSwap context leg,
             Event.balanceChangeSwap context
               ⟨fromIterPairs
                  [(swap.input_token, wrapI128 (-(u128AsI128 swap.input_amount))),
                   (swap.output_token, u128AsI128 swap.output_amount)],
                [leg]⟩ none]
        else []
      | none => []
  else []

/-- View of a `VeaxPool` log payload: the token pair used for the pool id,
the rest of the decoded pool state abstracted as a handle. -/
structure VeaxPoolView where
  pool : String × String
  state : Nat
  deriving DecidableEq, Repr

/-- detect_changes from `veax_state.rs`: for every log line that parses as
a `veax`/`update_pool_state` event, emit one `PoolChangeEvent`. -/
def veaxDetectChanges (receipt : LogReceiptView (Option (EventLogView VeaxPoolView)))
    (block : BlockView) (is_testnet : Bool) : List Event :=
  if is_testnet then []
  else if receipt.is_successful && receipt.receiver_id == VEAX_CONTRACT_ID then
    receipt.parsed_logs.flatMap fun optLog =>
      match optLog with
      | some ev =>
        if ev.event == "update_pool_state" && ev.standard == "veax" then
          [Event.poolChange
            ⟨create_veax_pool_id ev.data.pool, receipt.receipt_id,
              block.timestamp_nanosec, block.height, PoolType.veax ev.data.pool ev.data.state⟩]
        else []
      | none => []
  else []

/-- INTEAR_CONTRACT_ID from `intear_plach_trade_detection.rs`. -/
def INTEAR_CONTRACT_ID : String := "dex.intear.near"

/-- PLACH_DEX_ID from `intear_plach_trade_detection.rs`, rendered as a
`DexId` string `deployer/id`. -/
def PLACH_DEX_ID : String := "slimedragon.near/xyk"

/-- create_plach_pool_id from `intear_plach_trade_detection.rs`. -/
def create_plach_pool_id (pool_id : Nat) : String :=
  "INTEARPLACH-" ++ toString pool_id

/-- SwapRequestAmount from `intear_dex_types.rs`. -/
inductive SwapRequestAmount where
  | exactIn (a : Nat)
  | exactOut (a : Nat)
  deriving DecidableEq, Repr

/-- SwapRequest from `intear_dex_types.rs`. -/
structure PlachSwapRequest where
  message : String
  asset_in : AssetId
  asset_out : AssetId
  amount : SwapRequestAmount
  deriving DecidableEq, Repr

/-- PlachSwapEvent from `intear_plach_trade_detection.rs`. -/
structure PlachSwapEvent where
  pool_id : Nat
  request : PlachSwapRequest
  amount_in : Nat
  amount_out : Nat
  deriving DecidableEq, Repr

/-- PlachPoolUpdatedEvent from `intear_plach_trade_detection.rs`; the
decoded `IntearPlachPool` payload is abstracted as a handle. -/
structure PlachPoolUpdatedEvent where
  pool_id : Nat
  pool : Nat
  deriving DecidableEq, Repr

/-- PlachLiquidityAddedEvent from `intear_plach_trade_detection.rs`. -/
structure PlachLiquidityAddedEvent where
  pool_id : Nat
  asset_0 : AssetId
  asset_1 : AssetId
  added_amount_0 : Nat
  added_amount_1 : Nat
  minted_shares : Nat
  new_owned_asset_0 : Nat
  new_owned_asset_1 : Nat
  new_owned_shares : Nat
  new_total_asset_0 : Nat
  new_total_asset_1 : Nat
  new_total_shares : Nat
  deriving DecidableEq, Repr

/-- PlachLiquidityRemovedEvent from `intear_plach_trade_detection.rs`. -/
structure PlachLiquidityRemovedEvent where
  pool_id : Nat
  asset_0 : AssetId
  asset_1 : AssetId
  removed_amount_0 : Nat
  removed_amount_1 : Nat
  burned_shares : Nat
  new_owned_asset_0 : Nat
  new_owned_asset_1 : Nat
  new_owned_shares : Nat
  new_total_asset_0 : Nat
  new_total_asset_1 : Nat
  new_total_shares : Nat
  deriving DecidableEq, Repr

/-- Flattened view of `EventLogData<DexEvent<EventLogData<T>>>`: the outer
standard/version/event, the `DexEvent` fields (`dex_id` rendered as its
`deployer/id` string, optional referrer and user), the inner event-log
header and the typed payload. -/
structure DexEventView (α : Type) where
  standard : String
  version : String
  event : String
  dex_id : String
  inner_standard : String
  inner_version : String
  inner_event : String
  referrer : Option String
  user : Option String
  data : α
  deriving DecidableEq, Repr

/-- Results of trying one log line against the four deserializations the
Intear detector attempts (the same line is offered to all four `if`
blocks). -/
structure PlachLogView where
  asSwap : Option (DexEventView PlachSwapEvent)
  asPoolUpdated : Option (DexEventView PlachPoolUpdatedEvent)
  asLiqAdded : Option (DexEventView PlachLiquidityAddedEvent)
  asLiqRemoved : Option (DexEventView PlachLiquidityRemovedEvent)
  deriving DecidableEq, Repr

/-- Convert an `AssetId` to a token account: NEP-141 keeps its contract,
NEAR maps to `near`, and multi-token or NFT assets make the loop
`continue` (`none`). -/
def plachAssetToken? : AssetId → Option String
  | .nep141 contract_id => some contract_id
  | .nep245 _ _ => none
  | .nep171 _ _ => none
  | .near => some "near"

/-- Guard shared by the four Intear branches: outer event `dex_event` of
standard `inteardex`, inner event name as given, and the Plach dex id. -/
def plachGuard {α : Type} (e : DexEventView α) (innerName : String) : Bool :=
  e.event == "dex_event" && e.standard == "inteardex" &&
    e.inner_event == innerName && e.dex_id == PLACH_DEX_ID

/-- Swap branch of the Intear detector: emit the `RawPoolSwap`, then check
both amounts with `i128::try_from`; an amount at or above `2 ^ 127`
makes the loop `continue` (second component `true`) after the raw event,
skipping the `BalanceChangeSwap`; otherwise emit it with the referrer. -/
def plachSwapBranch (log : PlachLogView) (block : BlockView) (txHash rid : String) :
    List Event × Bool :=
  match log.asSwap with
  | some e =>
    if plachGuard e "swap" then
      match e.user with
      | some user =>
        match plachAssetToken? e.data.request.asset_in with
        | none => ([], true)
        | some asset_in =>
          match plachAssetToken? e.data.request.asset_out with
          | none => ([], true)
          | some asset_out =>
            let context := mkCtx user block txHash rid
            let leg : RawPoolSwap :=
              ⟨create_plach_pool_id e.data.pool_id, asset_in, asset_out,
                e.data.amount_in, e.data.amount_out⟩
            if 2 ^ 127 ≤ e.data.amount_in then ([Event.rawPoolSwap context leg], true)
            else if 2 ^ 127 ≤ e.data.amount_out then ([Event.rawPoolSwap context leg], true)
            else
              ([Event.rawPoolSwap context leg,
                Event.balanceChangeSwap context
                  ⟨fromIterPairs
                     [(asset_in, -(e.data.amount_in : Int)),
                      (asset_out, (e.data.amount_out : Int))],
                   [leg]⟩ e.referrer], false)
      | none => ([], false)
    else ([], false)
  | none => ([], false)

/-- Pool-updated branch of the Intear detector. -/
def plachPoolUpdatedBranch (log : PlachLogView) (block : BlockView) (rid : String) :
    List Event :=
  match log.asPoolUpdated with
  | some e =>
    if plachGuard e "pool_updated" then
      [Event.poolChange
        ⟨create_plach_pool_id e.data.pool_id, rid, block.timestamp_nanosec, block.height,
          PoolType.intearPlach e.data.pool⟩]
    else []
  | none => []

/-- Liquidity-added branch of the Intear detector: asset conversion and
`i128::try_from` failures make the loop `continue` before anything is
emitted. -/
def plachLiqAddedBranch (log : PlachLogView) (block : BlockView) (txHash rid : String) :
    List Event × Bool :=
  match log.asLiqAdded with
  | some e =>
    if plachGuard e "liquidity_added" then
      match e.user with
      | some user =>
        match plachAssetToken? e.data.asset_0 with
        | none => ([], true)
        | some asset_0 =>
          match plachAssetToken? e.data.asset_1 with
          | none => ([], true)
          | some asset_1 =>
            let context := mkCtx user block txHash rid
            if 2 ^ 127 ≤ e.data.added_amount_0 then ([], true)
            else if 2 ^ 127 ≤ e.data.added_amount_1 then ([], true)
            else
              ([Event.liquidityPool context (create_plach_pool_id e.data.pool_id)
                  (fromIterPairs
                    [(asset_0, (e.data.added_amount_0 : Int)),
                     (asset_1, (e.data.added_amount_1 : Int))])], false)
      | none => ([], false)
    else ([], false)
  | none => ([], false)

/-- Liquidity-removed branch of the Intear detector: like the added branch
but with negated amounts. -/
def plachLiqRemovedBranch (log : PlachLogView) (block : BlockView) (txHash rid : String) :
    List Event × Bool :=
  match log.asLiqRemoved with
  | some e =>
    if plachGuard e "liquidity_removed" then
      match e.user with
      | some user =>
        match plachAssetToken? e.data.asset_0 with
        | none => ([], true)
        | some asset_0 =>
          match plachAssetToken? e.data.asset_1 with
          | none => ([], true)
          | some asset_1 =>
            let context := mkCtx user block txHash rid
            if 2 ^ 127 ≤ e.data.removed_amount_0 then ([], true)
            else if 2 ^ 127 ≤ e.data.removed_amount_1 then ([], true)
            else
              ([Event.liquidityPool context (create_plach_pool_id e.data.pool_id)
                  (fromIterPairs
                    [(asset_0, -(e.data.removed_amount_0 : Int)),
                     (asset_1, -(e.data.removed_amount_1 : Int))])], false)
      | none => ([], false)
    else ([], false)
  | none => ([], false)

/-- Process one log line through the four Intear branches in source order;
a `continue` raised by an earlier branch skips the later branches for this
line but keeps the events already emitted. -/
def plachProcessLog (log : PlachLogView) (block : BlockView) (txHash rid : String) :
    List Event :=
  let p1 := plachSwapBranch log block txHash rid
  if p1.2 then p1.1
  else
    let e2 := plachPoolUpdatedBranch log block rid
    let p3 := plachLiqAddedBranch log block txHash rid
    if p3.2 then p1.1 ++ e2 ++ p3.1
    else
      let p4 := plachLiqRemovedBranch log block txHash rid
      p1.1 ++ e2 ++ p3.1 ++ p4.1

/-- detect from `intear_plach_trade_detection.rs`. -/
def plachDetect (receipt : LogReceiptView PlachLogView) (txHash : String)
    (block : BlockView) (is_testnet : Bool) : List Event :=
  if is_testnet then []
  else if receipt.is_successful && receipt.receiver_id == INTEAR_CONTRACT_ID then
    receipt.parsed_logs.flatMap fun log =>
      plachProcessLog log block txHash receipt.receipt_id
  else []

/-- View of one raw state mutation (`StateChangeValueView::DataUpdate`):
the touched account, the raw key bytes, the receipt hash when the cause is
`ReceiptProcessing` (`none` for other causes), and the abstracted borsh
deserialization results for the value bytes (per schema) and for the
account id embedded in the key tail. -/
structure StateChangeView where
  account_id : String
  key : List Nat
  cause_receipt : Option String
  ref_pool_decoded : Option Nat
  key_account_decoded : Option String
  aidols_pool_decoded : Option Nat
  grafun_pool_decoded : Option Nat
  deriving DecidableEq, Repr

/-- Little-endian byte decoding of the 8-byte Ref pool index
(`u64::from_le_bytes`). -/
def fromLeBytes (bs : List Nat) : Nat :=
  bs.foldr (fun b acc => b + 256 * acc) 0

/-- Ref arm of the state-diff decoder, after the key prefix (legacy `p` or
current `0x00`) has been stripped: an 8-byte tail decodes to a pool index;
a decodable value with an index above the 420000 sanity ceiling is logged
and skipped. -/
def refKeyBody (rest : List Nat) (rid : String) (sc : StateChangeView) (block : BlockView) :
    List Event :=
  if rest.length ≠ 8 then []
  else
    let pool_id := fromLeBytes rest
    match sc.ref_pool_decoded with
    | some pool =>
      if pool_id > 420000 then []
      else
        [Event.poolChange
          ⟨create_ref_pool_id pool_id, rid, block.timestamp_nanosec, block.height,
            PoolType.ref pool⟩]
    | none => []

/-- Per-mutation body of `process_block` from `lib.rs`: demultiplex on the
account id, strip the protocol's key prefix (`0x00` or `p` = byte 112 for
Ref, `0x00` for AIdols, `s` = byte 115 for GraFun), decode, and emit a
`PoolChangeEvent` when everything matches. -/
def processStateChange (sc : StateChangeView) (block : BlockView) (is_testnet : Bool) :
    List Event :=
  let ref_contract_id := if is_testnet then TESTNET_REF_CONTRACT_ID else REF_CONTRACT_ID
  if sc.account_id == ref_contract_id then
    match sc.cause_receipt with
    | none => []
    | some rid =>
      match sc.key with
      | 0 :: rest => refKeyBody rest rid sc block
      | 112 :: rest => refKeyBody rest rid sc block
      | _ => []
  else if sc.account_id == AIDOLS_CONTRACT_ID then
    match sc.cause_receipt with
    | none => []
    | some rid =>
      match sc.key with
      | 0 :: _ =>
        match sc.key_account_decoded with
        | none => []
        | some token_id =>
          match sc.aidols_pool_decoded with
          | some pool =>
            [Event.poolChange
              ⟨create_aidols_pool_id token_id, rid, block.timestamp_nanosec, block.height,
                PoolType.aidols token_id pool⟩]
          | none => []
      | _ => []
  else if sc.account_id == GRAFUN_CONTRACT_ID then
    match sc.cause_receipt with
    | none => []
    | some rid =>
      match sc.key with
      | 115 :: _ =>
        match sc.key_account_decoded with
        | none => []
        | some token_id =>
          match sc.grafun_pool_decoded with
          | some pool =>
            [Event.poolChange
              ⟨create_grafun_pool_id token_id, rid, block.timestamp_nanosec, block.height,
                PoolType.grafun token_id pool⟩]
          | none => []
      | _ => []
  else []

/-- process_block from `lib.rs`: every state mutation in the block is
processed independently, mutation by mutation. -/
def processBlock (changes : List StateChangeView) (block : BlockView) (is_testnet : Bool) :
    List Event :=
  changes.flatMap fun sc => processStateChange sc block is_testnet

/-- The per-token signed sum of a list of hop legs, exactly as the Ref
detector accumulates it (wrapping `i128` arithmetic on the wrapping casts
of the leg amounts). -/
def signedSumOfLegs (legs : List RawPoolSwap) : AMap :=
  legs.foldl
    (fun m leg =>
      AMap.addDelta (AMap.addDelta m leg.token_in (-(u128AsI128 leg.amount_in)))
        leg.token_out (u128AsI128 leg.amount_out))
    []

/-- Fixture: block header used by the concrete scenarios below. -/
def cBlock : BlockView := ⟨100, 5000⟩

/-- Fixture: a successful Ref receipt with the given actions and logs. -/
def mkRefReceipt (actions : List ActionView) (logs : List String) : ReceiptView :=
  { receipt_id := "r1", predecessor_id := "alice.near",
    receiver_id := "v2.ref-finance.near", is_successful := true,
    actions := some actions, logs := logs, child_receipt_ids := [] }

/-- Fixture: a one-receipt transaction. -/
def mkTx (r : ReceiptView) : TransactionView := ⟨"tx1", [some r]⟩

/-- Fixture: a `swap` function-call action intending the given pools. -/
def swapCallAction (pools : List Nat) : ActionView :=
  ActionView.functionCall "swap" ⟨none, some pools, none, none, none⟩

/-- Fixture: an `add_liquidity` function-call action for the given pool. -/
def addLiqAction (pid : Nat) : ActionView :=
  ActionView.functionCall "add_liquidity" ⟨none, none, none, some pid, none⟩

/-- Fixture: an `ft_on_transfer` function-call action whose message parsed
as the execute sub-schema with the given pools. -/
def ftOnTransferAction (pools : List Nat) : ActionView :=
  ActionView.functionCall "ft_on_transfer" ⟨some ⟨some pools, none⟩, none, none, none, none⟩

/-- Fixture: a failed (unsuccessful) Ref receipt. -/
def failedRefReceipt : ReceiptView :=
  ⟨"r0", "alice.near", "v2.ref-finance.near", false, none, ["Swapped 5 aaa.near for 6 bbb.near"], []⟩

/-- Fixture: a failed log-native receipt with no parsed logs. -/
def failedLogReceipt (α : Type) : LogReceiptView α := ⟨"r0", "some.near", false, []⟩

/-- Fixture: an empty transaction view. -/
def emptyTx : TransactionView := ⟨"tx0", []⟩

lemma runLiquidityLogs_nonswap (p : Str → Option AMap) (ctx : TradeContext) (pid : Nat) :
    ∀ (logs : List String), ∀ e ∈ (runLiquidityLogs p ctx pid logs).1, e.isSwapEv = false := by
  intro logs
  induction logs with
  | nil => simp [runLiquidityLogs]
  | cons l rest ih =>
    intro e he
    unfold runLiquidityLogs at he
    cases hp : p l.data with
    | none => simp [hp] at he
    | some m =>
      simp only [hp] at he
      rcases List.mem_cons.mp he with h | h
      · subst h; rfl
      · exact ih e h

lemma refProcessOneAction_nonswap (receipt : ReceiptView) (tx : TransactionView)
    (block : BlockView) (a : ActionView) (st : ActionState)
    (hst : ∀ e ∈ st.events, e.isSwapEv = false) :
    ∀ e ∈ (refProcessOneAction receipt tx block a st).events, e.isSwapEv = false := by
  intro e he
  cases a with
  | other => exact hst e he
  | functionCall m args =>
    unfold refProcessOneAction at he
    simp only at he
    split at he
    · exact hst e he
    · split at he
      · exact hst e he
      · split at he
        · exact hst e he
        · split at he
          · exact hst e he
          · split at he
            · split at he
              · simp only [List.mem_append] at he
                rcases he with h | h
                · exact hst e h
                · exact runLiquidityLogs_nonswap _ _ _ _ e h
              · exact hst e he
            · split at he
              · split at he
                · simp only [List.mem_append] at he
                  rcases he with h | h
                  · exact hst e h
                  · exact runLiquidityLogs_nonswap _ _ _ _ e h
                · exact hst e he
              · exact hst e he

lemma refProcessActions_nonswap (receipt : ReceiptView) (tx : TransactionView)
    (block : BlockView) :
    ∀ (acts : List ActionView) (st : ActionState),
      (∀ e ∈ st.events, e.isSwapEv = false) →
      ∀ e ∈ (refProcessActions receipt tx block acts st).events, e.isSwapEv = false := by
  intro acts
  induction acts with
  | nil => intro st hst; exact hst
  | cons a rest ih =>
    intro st hst e he
    unfold refProcessActions at he
    dsimp only at he
    split at he
    · exact refProcessOneAction_nonswap receipt tx block a st hst e he
    · exact ih _ (refProcessOneAction_nonswap receipt tx block a st hst) e he

lemma refActionState_nonswap (receipt : ReceiptView) (tx : TransactionView)
    (block : BlockView) :
    ∀ e ∈ (refActionState receipt tx block).events, e.isSwapEv = false := by
  unfold refActionState
  cases receipt.actions with
  | none => simp
  | some acts =>
    simp only
    exact refProcessActions_nonswap receipt tx block acts _ (by simp)

lemma refProcessOneAction_trader (receipt : ReceiptView) (tx : TransactionView)
    (block : BlockView) (a : ActionView) (st : ActionState)
    (hfind : findReceiptWithChild tx receipt.receipt_id = none) :
    (refProcessOneAction receipt tx block a st).trader = st.trader := by
  cases a with
  | other => rfl
  | functionCall m args =>
    unfold refProcessOneAction
    simp only [hfind]
    split
    · rfl
    · split
      · rfl
      · split
        · rfl
        · split
          · rfl
          · split
            · split <;> rfl
            · split
              · split <;> rfl
              · rfl

lemma refProcessActions_trader (receipt : ReceiptView) (tx : TransactionView)
    (block : BlockView)
    (hfind : findReceiptWithChild tx receipt.receipt_id = none) :
    ∀ (acts : List ActionView) (st : ActionState),
      (refProcessActions receipt tx block acts st).trader = st.trader := by
  intro acts
  induction acts with
  | nil => intro st; rfl
  | cons a rest ih =>
    intro st
    unfold refProcessActions
    dsimp only
    split
    · exact refProcessOneAction_trader receipt tx block a st hfind
    · rw [ih, refProcessOneAction_trader receipt tx block a st hfind]

lemma refActionState_trader (receipt : ReceiptView) (tx : TransactionView)
    (block : BlockView)
    (hfind : findReceiptWithChild tx receipt.receipt_id = none) :
    (refActionState receipt tx block).trader = receipt.predecessor_id := by
  unfold refActionState
  cases receipt.actions with
  | none => rfl
  | some acts => exact refProcessActions_trader receipt tx block hfind acts _

lemma refDetect_guard (receipt : ReceiptView) (tx : TransactionView) (block : BlockView)
    (tn : Bool)
    (hsucc : receipt.is_successful = true)
    (hrecv : receipt.receiver_id = if tn then TESTNET_REF_CONTRACT_ID else REF_CONTRACT_ID) :
    refDetect receipt tx block tn =
      (if (refActionState receipt tx block).earlyReturn then
        some (refActionState receipt tx block).events
      else
        match refResolveTrader tx receipt (refActionState receipt tx block).trader with
        | none => some (refActionState receipt tx block).events
        | some trader =>
          match collectSwapHops receipt.logs with
          | none => none
          | some hops =>
            some (refEmission (refActionState receipt tx block) trader hops block tx.hash
              receipt.receipt_id)) := by
  unfold refDetect
  rw [hsucc, hrecv]
  simp

lemma refDetect_of_earlyReturn (receipt : ReceiptView) (tx : TransactionView)
    (block : BlockView) (tn : Bool) (st : ActionState)
    (hsucc : receipt.is_successful = true)
    (hrecv : receipt.receiver_id = if tn then TESTNET_REF_CONTRACT_ID else REF_CONTRACT_ID)
    (hst : refActionState receipt tx block = st)
    (hER : st.earlyReturn = true) :
    refDetect receipt tx block tn = some st.events := by
  rw [refDetect_guard receipt tx block tn hsucc hrecv, hst]
  simp [hER]

lemma refDetect_of_resolveNone (receipt : ReceiptView) (tx : TransactionView)
    (block : BlockView) (tn : Bool) (st : ActionState)
    (hsucc : receipt.is_successful = true)
    (hrecv : receipt.receiver_id = if tn then TESTNET_REF_CONTRACT_ID else REF_CONTRACT_ID)
    (hst : refActionState receipt tx block = st)
    (hER : st.earlyReturn = false)
    (hres : refResolveTrader tx receipt st.trader = none) :
    refDetect receipt tx block tn = some st.events := by
  rw [refDetect_guard receipt tx block tn hsucc hrecv, hst]
  simp [hER, hres]

lemma refDetect_of_resolved (receipt : ReceiptView) (tx : TransactionView)
    (block : BlockView) (tn : Bool) (st : ActionState) (trader : String)
    (hops : List SwapHop)
    (hsucc : receipt.is_successful = true)
    (hrecv : receipt.receiver_id = if tn then TESTNET_REF_CONTRACT_ID else REF_CONTRACT_ID)
    (hst : refActionState receipt tx block = st)
    (hER : st.earlyReturn = false)
    (hres : refResolveTrader tx receipt st.trader = some trader)
    (hhops : collectSwapHops receipt.logs = some hops) :
    refDetect receipt tx block tn =
      some (refEmission st trader hops block tx.hash receipt.receipt_id) := by
  rw [refDetect_guard receipt tx block tn hsucc hrecv, hst]
  simp [hER, hres, hhops]

lemma correlate_cons (q : Nat) (qs : List Nat) (k : SwapHop) (ks : List SwapHop) :
    correlate (q :: qs) (k :: ks) =
      ⟨create_ref_pool_id q, k.token_in, k.token_out, k.amount_in, k.amount_out⟩ ::
        correlate qs ks := by
  simp [correlate]

lemma correlate_length (pools : List Nat) (hops : List SwapHop)
    (hlen : pools.length = hops.length) :
    (correlate pools hops).length = hops.length := by
  simp [correlate, hlen]

lemma correlate_ne_nil (pools : List Nat) (hops : List SwapHop)
    (hlen : pools.length = hops.length) (hne : pools ≠ []) :
    (correlate pools hops).isEmpty = false := by
  have h1 : (correlate pools hops).length = hops.length := correlate_length pools hops hlen
  rw [List.isEmpty_eq_false_iff_exists_mem]
  rcases pools with _ | ⟨q, qs⟩
  · exact absurd rfl hne
  · rcases hops with _ | ⟨k, ks⟩
    · simp at hlen
    · exact ⟨_, by rw [correlate_cons]; exact List.mem_cons_self _ _⟩

lemma refEmission_of_mismatch (st : ActionState) (trader : String) (hops : List SwapHop)
    (block : BlockView) (txh rid : String)
    (hlen : st.pools.length ≠ hops.length) :
    refEmission st trader hops block txh rid = st.events := by
  unfold refEmission
  rw [if_neg hlen]

lemma refEmission_of_match (st : ActionState) (trader : String) (hops : List SwapHop)
    (block : BlockView) (txh rid : String)
    (hlen : st.pools.length = hops.length) (hne : st.pools ≠ []) :
    refEmission st trader hops block txh rid =
      st.events ++
        (correlate st.pools hops).map (Event.rawPoolSwap (mkCtx trader block txh rid)) ++
        (if (AMap.retainNonzero (balanceChangesOfHops hops)).isEmpty then []
         else
           [Event.balanceChangeSwap (mkCtx trader block txh rid)
             ⟨AMap.retainNonzero (balanceChangesOfHops hops), correlate st.pools hops⟩ none]) := by
  unfold refEmission
  rw [if_pos hlen]
  simp [correlate_ne_nil st.pools hops hlen hne]

lemma correlate_get? :
    ∀ (pools : List Nat) (hops : List SwapHop) (i : Nat) (p : Nat) (h : SwapHop),
      pools[i]? = some p → hops[i]? = some h →
      (correlate pools hops)[i]? =
        some ⟨create_ref_pool_id p, h.token_in, h.token_out, h.amount_in, h.amount_out⟩ := by
  intro pools
  induction pools with
  | nil => intro hops i p h hp; simp at hp
  | cons q qs ih =>
    intro hops i p h hp hh
    cases hops with
    | nil => simp at hh
    | cons k ks =>
      rw [correlate_cons]
      cases i with
      | zero =>
        simp only [List.getElem?_cons_zero, Option.some.injEq] at hp hh
        subst hp; subst hh
        simp
      | succ j =>
        simp only [List.getElem?_cons_succ] at hp hh ⊢
        exact ih ks j p h hp hh

lemma signedSum_correlate_go :
    ∀ (pools : List Nat) (hops : List SwapHop) (m : AMap),
      pools.length = hops.length →
      (correlate pools hops).foldl
        (fun m leg =>
          AMap.addDelta (AMap.addDelta m leg.token_in (-(u128AsI128 leg.amount_in)))
            leg.token_out (u128AsI128 leg.amount_out)) m =
      hops.foldl
        (fun m h =>
          AMap.addDelta (AMap.addDelta m h.token_in (-(u128AsI128 h.amount_in)))
            h.token_out (u128AsI128 h.amount_out)) m := by
  intro pools
  induction pools with
  | nil =>
    intro hops m hlen
    cases hops with
    | nil => rfl
    | cons k ks => simp at hlen
  | cons q qs ih =>
    intro hops m hlen
    cases hops with
    | nil => simp at hlen
    | cons k ks =>
      rw [correlate_cons]
      simp only [List.foldl_cons]
      exact ih ks _ (by simpa using hlen)

lemma signedSum_correlate (pools : List Nat) (hops : List SwapHop)
    (hlen : pools.length = hops.length) :
    signedSumOfLegs (correlate pools hops) = balanceChangesOfHops hops :=
  signedSum_correlate_go pools hops [] hlen

/-- C4: for every receipt whose execution outcome is unsuccessful, every
adapter (Ref, RefDcl, Veax trade, AIdols, GraFun, Veax pool-state, Intear)
emits zero events, regardless of the receipt's log content or call
arguments. -/
theorem c4_failed_receipt_no_events
    (r1 : ReceiptView) (tx : TransactionView) (block : BlockView) (tn : Bool) (txh : String)
    (r2 : LogReceiptView (Option (EventLogView (List RefDclSwapEvent))))
    (r3 : LogReceiptView (Option (EventLogView VeaxSwapEvent)))
    (r4 : LogReceiptView (Option (EventLogView (List AidolsSwapEvent))))
    (r5 : LogReceiptView (Option (EventLogView (List GraFunSwapEvent))))
    (r6 : LogReceiptView (Option (EventLogView VeaxPoolView)))
    (r7 : LogReceiptView PlachLogView)
    (h1 : r1.is_successful = false) (h2 : r2.is_successful = false)
    (h3 : r3.is_successful = false) (h4 : r4.is_successful = false)
    (h5 : r5.is_successful = false) (h6 : r6.is_successful = false)
    (h7 : r7.is_successful = false) :
    refDetect r1 tx block tn = some [] ∧
    refdclDetect r2 txh block tn = [] ∧
    veaxDetect r3 txh block tn = [] ∧
    aidolsDetect r4 txh block tn = [] ∧
    grafunDetect r5 txh block tn = [] ∧
    veaxDetectChanges r6 block tn = [] ∧
    plachDetect r7 txh block tn = [] := by
  refine ⟨?_, ?_, ?_, ?_, ?_, ?_, ?_⟩
  · simp [refDetect, h1]
  · cases tn <;> simp [refdclDetect, h2]
  · cases tn <;> simp [veaxDetect, h3]
  · cases tn <;> simp [aidolsDetect, h4]
  · cases tn <;> simp [grafunDetect, h5]
  · cases tn <;> simp [veaxDetectChanges, h6]
  · cases tn <;> simp [plachDetect, h7]

/-- Witness for C4 at concrete failed receipts. -/
theorem c4_failed_receipt_no_events_witness :
    refDetect failedRefReceipt emptyTx cBlock false = some [] ∧
    refdclDetect (failedLogReceipt _) "tx0" cBlock false = [] ∧
    veaxDetect (failedLogReceipt _) "tx0" cBlock false = [] ∧
    aidolsDetect (failedLogReceipt _) "tx0" cBlock false = [] ∧
    grafunDetect (failedLogReceipt _) "tx0" cBlock false = [] ∧
    veaxDetectChanges (failedLogReceipt _) cBlock false = [] ∧
    plachDetect (failedLogReceipt _) "tx0" cBlock false = [] :=
  c4_failed_receipt_no_events failedRefReceipt emptyTx cBlock false "tx0"
    (failedLogReceipt _) (failedLogReceipt _) (failedLogReceipt _) (failedLogReceipt _)
    (failedLogReceipt _) (failedLogReceipt _)
    rfl rfl rfl rfl rfl rfl rfl

/-- C9: every pool-id constructor produces `"<PROTOCOL>-<identifier>"` with
its fixed protocol tag (REF-, REFDCL-, AIDOLS-, GRAFUN-, VEAX-), and the
ranges of any two distinct protocols' constructors are disjoint: no Ref
pool id ever equals a RefDcl, AIdols, GraFun or Veax pool id, and likewise
for every other pair, for all inputs. -/
theorem c9_pool_id_formats_disjoint :
    (∀ n : Nat, create_ref_pool_id n = "REF-" ++ toString n) ∧
    (∀ s : String, create_refdcl_pool_id s = "REFDCL-" ++ s) ∧
    (∀ s : String, create_aidols_pool_id s = "AIDOLS-" ++ s) ∧
    (∀ s : String, create_grafun_pool_id s = "GRAFUN-" ++ s) ∧
    (∀ t : String × String, create_veax_pool_id t = "VEAX-" ++ t.1 ++ "-" ++ t.2) ∧
    (∀ (n : Nat) (s : String),
      decide (create_ref_pool_id n = create_refdcl_pool_id s) = false) ∧
    (∀ (n : Nat) (s : String),
      decide (create_ref_pool_id n = create_aidols_pool_id s) = false) ∧
    (∀ (n : Nat) (s : String),
      decide (create_ref_pool_id n = create_grafun_pool_id s) = false) ∧
    (∀ (n : Nat) (t : String × String),
      decide (create_ref_pool_id n = create_veax_pool_id t) = false) ∧
    (∀ (s t : String),
      decide (create_refdcl_pool_id s = create_aidols_pool_id t) = false) ∧
    (∀ (s t : String),
      decide (create_refdcl_pool_id s = create_grafun_pool_id t) = false) ∧
    (∀ (s : String) (t : String × String),
      decide (create_refdcl_pool_id s = create_veax_pool_id t) = false) ∧
    (∀ (s t : String),
      decide (create_aidols_pool_id s = create_grafun_pool_id t) = false) ∧
    (∀ (s : String) (t : String × String),
      decide (create_aidols_pool_id s = create_veax_pool_id t) = false) ∧
    (∀ (s : String) (t : String × String),
      decide (create_grafun_pool_id s = create_veax_pool_id t) = false) := by
  refine ⟨fun n => rfl, fun s => rfl, fun s => rfl, fun s => rfl, fun t => rfl,
    ?_, ?_, ?_, ?_, ?_, ?_, ?_, ?_, ?_, ?_⟩
  · exact fun n s => decide_eq_false (fun he =>
      absurd (show (['R', 'E', 'F', '-'] : List Char) = ['R', 'E', 'F', 'D'] from
          congrArg (fun u => u.data.take 4) he) (by decide))
  · exact fun n s => decide_eq_false (fun he =>
      absurd (show (['R'] : List Char) = ['A'] from
          congrArg (fun u => u.data.take 1) he) (by decide))
  · exact fun n s => decide_eq_false (fun he =>
      absurd (show (['R'] : List Char) = ['G'] from
          congrArg (fun u => u.data.take 1) he) (by decide))
  · exact fun n t => decide_eq_false (fun he =>
      absurd (show (['R'] : List Char) = ['V'] from
          congrArg (fun u => u.data.take 1) he) (by decide))
  · exact fun s t => decide_eq_false (fun he =>
      absurd (show (['R'] : List Char) = ['A'] from
          congrArg (fun u => u.data.take 1) he) (by decide))
  · exact fun s t => decide_eq_false (fun he =>
      absurd (show (['R'] : List Char) = ['G'] from
          congrArg (fun u => u.data.take 1) he) (by decide))
  · exact fun s t => decide_eq_false (fun he =>
      absurd (show (['R'] : List Char) = ['V'] from
          congrArg (fun u => u.data.take 1) he) (by decide))
  · exact fun s t => decide_eq_false (fun he =>
      absurd (show (['A'] : List Char) = ['G'] from
          congrArg (fun u => u.data.take 1) he) (by decide))
  · exact fun s t => decide_eq_false (fun he =>
      absurd (show (['A'] : List Char) = ['V'] from
          congrArg (fun u => u.data.take 1) he) (by decide))
  · exact fun s t => decide_eq_false (fun he =>
      absurd (show (['G'] : List Char) = ['V'] from
          congrArg (fun u => u.data.take 1) he) (by decide))

/-- C8: a raw state mutation of the Ref contract whose decoded numeric pool
id exceeds the 420000 sanity ceiling produces no `PoolChangeEvent`, and the
remaining state mutations of the block are processed unaffected (the
warning the source logs alongside is I/O outside this embedding). -/
theorem c8_pool_ceiling_guard (sc : StateChangeView) (block : BlockView)
    (rest : List Nat) (pre post : List StateChangeView)
    (hacc : sc.account_id = "v2.ref-finance.near")
    (hkey : sc.key = 0 :: rest ∨ sc.key = 112 :: rest)
    (hlen : rest.length = 8)
    (hceil : fromLeBytes rest > 420000) :
    processStateChange sc block false = [] ∧
    processBlock (pre ++ sc :: post) block false =
      processBlock pre block false ++ processBlock post block false := by
  have hone : processStateChange sc block false = [] := by
    unfold processStateChange refKeyBody
    rcases hkey with hk | hk <;>
      cases hd : sc.ref_pool_decoded <;>
        cases hc : sc.cause_receipt <;>
          simp [hacc, hk, hc, hd, hlen, hceil, REF_CONTRACT_ID, TESTNET_REF_CONTRACT_ID]
  refine ⟨hone, ?_⟩
  unfold processBlock
  rw [List.flatMap_append, List.flatMap_cons, hone]
  simp

/-- Witness for C8: a mutation with key tail `0xff × 8` (pool id
`2 ^ 64 - 1`) produces no event and leaves neighbouring mutations alone. -/
theorem c8_pool_ceiling_guard_witness :
    processStateChange
      ⟨"v2.ref-finance.near", 0 :: [255, 255, 255, 255, 255, 255, 255, 255],
        some "rc", some 7, none, none, none⟩ cBlock false = [] ∧
    processBlock
      ([] ++ ⟨"v2.ref-finance.near", 0 :: [255, 255, 255, 255, 255, 255, 255, 255],
        some "rc", some 7, none, none, none⟩ :: []) cBlock false =
      processBlock [] cBlock false ++ processBlock [] cBlock false :=
  c8_pool_ceiling_guard _ cBlock [255, 255, 255, 255, 255, 255, 255, 255] [] []
    rfl (Or.inl rfl) (by decide) (by decide)

/-- C2: in the Ref adapter, when the number of intended hops differs from
the number of observed hops, no `RawPoolSwap` and no `BalanceChangeSwap` is
emitted for the receipt (the diagnostic log is I/O outside this
embedding); when the lengths are equal and emission is reached, hop `i` of
the emitted list takes its pool id from intended hop `i` and its tokens
and amounts from observed hop `i`. -/
theorem c2_correlation_length_gate
    (receipt : ReceiptView) (tx : TransactionView) (block : BlockView) (tn : Bool)
    (st : ActionState) (hops : List SwapHop)
    (hst : refActionState receipt tx block = st)
    (hhops : collectSwapHops receipt.logs = some hops) :
    (st.pools.length ≠ hops.length →
      ∀ e ∈ (refDetect receipt tx block tn).getD [], e.isSwapEv = false) ∧
    (∀ trader : String,
      receipt.is_successful = true →
      receipt.receiver_id = (if tn then TESTNET_REF_CONTRACT_ID else REF_CONTRACT_ID) →
      st.earlyReturn = false →
      refResolveTrader tx receipt st.trader = some trader →
      st.pools.length = hops.length →
      st.pools ≠ [] →
      refDetect receipt tx block tn =
        some (st.events ++
          (correlate st.pools hops).map
            (Event.rawPoolSwap (mkCtx trader block tx.hash receipt.receipt_id)) ++
          (if (AMap.retainNonzero (balanceChangesOfHops hops)).isEmpty then []
           else [Event.balanceChangeSwap (mkCtx trader block tx.hash receipt.receipt_id)
             ⟨AMap.retainNonzero (balanceChangesOfHops hops), correlate st.pools hops⟩ none])) ∧
      (∀ (i p : Nat) (h : SwapHop), st.pools[i]? = some p → hops[i]? = some h →
        (correlate st.pools hops)[i]? =
          some ⟨create_ref_pool_id p, h.token_in, h.token_out, h.amount_in, h.amount_out⟩)) := by
  have hns : ∀ e ∈ st.events, e.isSwapEv = false := by
    have h0 := refActionState_nonswap receipt tx block
    rw [hst] at h0
    exact h0
  constructor
  · intro hne e he
    cases hg : (receipt.is_successful &&
        (receipt.receiver_id == if tn then TESTNET_REF_CONTRACT_ID else REF_CONTRACT_ID)) with
    | false =>
      unfold refDetect at he
      dsimp only at he
      rw [hg] at he
      simp at he
    | true =>
      rw [Bool.and_eq_true] at hg
      have h1 : receipt.is_successful = true := hg.1
      have h2 : receipt.receiver_id =
          (if tn then TESTNET_REF_CONTRACT_ID else REF_CONTRACT_ID) :=
        eq_of_beq hg.2
      rw [refDetect_guard receipt tx block tn h1 h2, hst] at he
      cases hER : st.earlyReturn with
      | true =>
        simp only [hER, if_true] at he
        simp at he
        exact hns e he
      | false =>
        simp only [hER, Bool.false_eq_true, if_false] at he
        cases hres : refResolveTrader tx receipt st.trader with
        | none =>
          simp only [hres] at he
          simp at he
          exact hns e he
        | some trader =>
          simp only [hres, hhops] at he
          simp only [Option.getD_some] at he
          rw [refEmission_of_mismatch st trader hops block tx.hash receipt.receipt_id hne] at he
          exact hns e he
  · intro trader hsucc hrecv hER hres hlen hne
    refine ⟨?_, fun i p h hp hh => correlate_get? st.pools hops i p h hp hh⟩
    rw [refDetect_of_resolved receipt tx block tn st trader hops hsucc hrecv hst hER hres hhops,
      refEmission_of_match st trader hops block tx.hash receipt.receipt_id hlen hne]

set_option maxRecDepth 40000 in
/-- Witness for C2: a mismatched receipt (two intended pools, one observed
hop) emits no swap event; a matched receipt (one pool, one hop) emits the
positionally paired events. -/
theorem c2_correlation_length_gate_witness :
    refDetect (mkRefReceipt [swapCallAction [5059]] ["Swapped 100 aaa.near for 200 bbb.near"])
        (mkTx (mkRefReceipt [swapCallAction [5059]] ["Swapped 100 aaa.near for 200 bbb.near"]))
        cBlock false =
      some [Event.rawPoolSwap ⟨"alice.near", 100, 5000, "tx1", "r1"⟩
          ⟨"REF-5059", "aaa.near", "bbb.near", 100, 200⟩,
        Event.balanceChangeSwap ⟨"alice.near", 100, 5000, "tx1", "r1"⟩
          ⟨[("aaa.near", -100), ("bbb.near", 200)],
            [⟨"REF-5059", "aaa.near", "bbb.near", 100, 200⟩]⟩ none] ∧
    (∀ e ∈ (refDetect (mkRefReceipt [swapCallAction [1, 2]]
        ["Swapped 100 aaa.near for 200 bbb.near"])
        (mkTx (mkRefReceipt [swapCallAction [1, 2]] ["Swapped 100 aaa.near for 200 bbb.near"]))
        cBlock false).getD [], e.isSwapEv = false) := by
  constructor
  · have h := (c2_correlation_length_gate
      (mkRefReceipt [swapCallAction [5059]] ["Swapped 100 aaa.near for 200 bbb.near"])
      (mkTx (mkRefReceipt [swapCallAction [5059]] ["Swapped 100 aaa.near for 200 bbb.near"]))
      cBlock false _ [⟨"aaa.near", "bbb.near", 100, 200⟩] rfl (by decide)).2
      "alice.near" rfl rfl (by decide) (by decide) (by decide) (by decide)
    rw [h.1]
    decide
  · exact (c2_correlation_length_gate
      (mkRefReceipt [swapCallAction [1, 2]] ["Swapped 100 aaa.near for 200 bbb.near"])
      (mkTx (mkRefReceipt [swapCallAction [1, 2]] ["Swapped 100 aaa.near for 200 bbb.near"]))
      cBlock false _ [⟨"aaa.near", "bbb.near", 100, 200⟩] rfl (by decide)).1 (by decide)

/-- C5: when the Ref adapter reaches emission with a hop list whose
zero-pruned delta map is empty (a perfectly circular chain), it still emits
one `RawPoolSwap` per correlated hop, in call order, and emits no
`BalanceChangeSwap`. -/
theorem c5_circular_chain_raw_swaps_only
    (receipt : ReceiptView) (tx : TransactionView) (block : BlockView) (tn : Bool)
    (st : ActionState) (hops : List SwapHop) (trader : String)
    (hst : refActionState receipt tx block = st)
    (hhops : collectSwapHops receipt.logs = some hops)
    (hsucc : receipt.is_successful = true)
    (hrecv : receipt.receiver_id = (if tn then TESTNET_REF_CONTRACT_ID else REF_CONTRACT_ID))
    (hER : st.earlyReturn = false)
    (hres : refResolveTrader tx receipt st.trader = some trader)
    (hlen : st.pools.length = hops.length)
    (hne : st.pools ≠ [])
    (hzero : AMap.retainNonzero (balanceChangesOfHops hops) = []) :
    refDetect receipt tx block tn =
      some (st.events ++ (correlate st.pools hops).map
        (Event.rawPoolSwap (mkCtx trader block tx.hash receipt.receipt_id))) ∧
    (correlate st.pools hops).length = hops.length ∧
    (∀ (ctx : TradeContext) (bcs : BalanceChangeSwap) (r : Option String),
      Event.balanceChangeSwap ctx bcs r ∉ (refDetect receipt tx block tn).getD []) := by
  have hns : ∀ e ∈ st.events, e.isSwapEv = false := by
    have h0 := refActionState_nonswap receipt tx block
    rw [hst] at h0
    exact h0
  have hmain : refDetect receipt tx block tn =
      some (st.events ++ (correlate st.pools hops).map
        (Event.rawPoolSwap (mkCtx trader block tx.hash receipt.receipt_id))) := by
    rw [refDetect_of_resolved receipt tx block tn st trader hops hsucc hrecv hst hER hres hhops,
      refEmission_of_match st trader hops block tx.hash receipt.receipt_id hlen hne]
    simp [hzero]
  refine ⟨hmain, correlate_length st.pools hops hlen, ?_⟩
  intro ctx bcs r hmem
  rw [hmain] at hmem
  simp only [Option.getD_some, List.mem_append, List.mem_map] at hmem
  rcases hmem with h | ⟨x, _, hxe⟩
  · have := hns _ h
    simp [Event.isSwapEv] at this
  · exact Event.noConfusion hxe

set_option maxRecDepth 80000 in
/-- Witness for C5: a three-hop chain `aaa → bbb → ccc → aaa` whose sums
all net to zero emits exactly the three hop events and no balance change. -/
theorem c5_circular_chain_raw_swaps_only_witness :
    refDetect (mkRefReceipt [swapCallAction [1, 2, 3]]
        ["Swapped 100 aaa.near for 200 bbb.near",
         "Swapped 200 bbb.near for 300 ccc.near",
         "Swapped 300 ccc.near for 100 aaa.near"])
      (mkTx (mkRefReceipt [swapCallAction [1, 2, 3]]
        ["Swapped 100 aaa.near for 200 bbb.near",
         "Swapped 200 bbb.near for 300 ccc.near",
         "Swapped 300 ccc.near for 100 aaa.near"]))
      cBlock false =
      some [Event.rawPoolSwap ⟨"alice.near", 100, 5000, "tx1", "r1"⟩
          ⟨"REF-1", "aaa.near", "bbb.near", 100, 200⟩,
        Event.rawPoolSwap ⟨"alice.near", 100, 5000, "tx1", "r1"⟩
          ⟨"REF-2", "bbb.near", "ccc.near", 200, 300⟩,
        Event.rawPoolSwap ⟨"alice.near", 100, 5000, "tx1", "r1"⟩
          ⟨"REF-3", "ccc.near", "aaa.near", 300, 100⟩] ∧
    (∀ (ctx : TradeContext) (bcs : BalanceChangeSwap) (r : Option String),
      Event.balanceChangeSwap ctx bcs r ∉
        (refDetect (mkRefReceipt [swapCallAction [1, 2, 3]]
          ["Swapped 100 aaa.near for 200 bbb.near",
           "Swapped 200 bbb.near for 300 ccc.near",
           "Swapped 300 ccc.near for 100 aaa.near"])
        (mkTx (mkRefReceipt [swapCallAction [1, 2, 3]]
          ["Swapped 100 aaa.near for 200 bbb.near",
           "Swapped 200 bbb.near for 300 ccc.near",
           "Swapped 300 ccc.near for 100 aaa.near"]))
        cBlock false).getD []) := by
  have h := c5_circular_chain_raw_swaps_only
    (mkRefReceipt [swapCallAction [1, 2, 3]]
      ["Swapped 100 aaa.near for 200 bbb.near",
       "Swapped 200 bbb.near for 300 ccc.near",
       "Swapped 300 ccc.near for 100 aaa.near"])
    (mkTx (mkRefReceipt [swapCallAction [1, 2, 3]]
      ["Swapped 100 aaa.near for 200 bbb.near",
       "Swapped 200 bbb.near for 300 ccc.near",
       "Swapped 300 ccc.near for 100 aaa.near"]))
    cBlock false _
    [⟨"aaa.near", "bbb.near", 100, 200⟩, ⟨"bbb.near", "ccc.near", 200, 300⟩,
      ⟨"ccc.near", "aaa.near", 300, 100⟩]
    "alice.near" rfl (by decide) rfl rfl (by decide) (by decide) (by decide) (by decide)
    (by decide)
  refine ⟨?_, h.2.2⟩
  rw [h.1]
  decide

/-- C6: when the Ref adapter's resolved trader is the relayer `ref.hot.tg`,
the trader is re-resolved as the predecessor of the grandparent receipt
(two parent-lookup levels); if either the parent or the grandparent lookup
fails, no swap event is emitted for the receipt (the diagnostic naming the
transaction is I/O outside this embedding). -/
theorem c6_relayer_two_level_resolution
    (receipt : ReceiptView) (tx : TransactionView) (block : BlockView) (tn : Bool)
    (st : ActionState)
    (hst : refActionState receipt tx block = st)
    (hsucc : receipt.is_successful = true)
    (hrecv : receipt.receiver_id = (if tn then TESTNET_REF_CONTRACT_ID else REF_CONTRACT_ID))
    (hER : st.earlyReturn = false)
    (hrel : st.trader = "ref.hot.tg") :
    (find_parent_receipt tx receipt = none →
      refDetect receipt tx block tn = some st.events ∧
      ∀ e ∈ st.events, e.isSwapEv = false) ∧
    (∀ parent : ReceiptView, find_parent_receipt tx receipt = some parent →
      find_parent_receipt tx parent = none →
      refDetect receipt tx block tn = some st.events ∧
      ∀ e ∈ st.events, e.isSwapEv = false) ∧
    (∀ parent grandparent : ReceiptView,
      find_parent_receipt tx receipt = some parent →
      find_parent_receipt tx parent = some grandparent →
      refResolveTrader tx receipt st.trader = some grandparent.predecessor_id) := by
  have hns : ∀ e ∈ st.events, e.isSwapEv = false := by
    have h0 := refActionState_nonswap receipt tx block
    rw [hst] at h0
    exact h0
  refine ⟨?_, ?_, ?_⟩
  · intro hp
    have hres : refResolveTrader tx receipt st.trader = none := by
      unfold refResolveTrader
      rw [hrel]
      simp [hp]
    exact ⟨refDetect_of_resolveNone receipt tx block tn st hsucc hrecv hst hER hres, hns⟩
  · intro parent hp hgp
    have hres : refResolveTrader tx receipt st.trader = none := by
      unfold refResolveTrader
      rw [hrel]
      simp [hp, hgp]
    exact ⟨refDetect_of_resolveNone receipt tx block tn st hsucc hrecv hst hER hres, hns⟩
  · intro parent grandparent hp hgp
    unfold refResolveTrader
    rw [hrel]
    simp [hp, hgp]

set_option maxRecDepth 40000 in
/-- Witness for C6: a relayer receipt with no parent in its transaction
emits nothing, and a relayer receipt with a parent and grandparent resolves
the trader to the grandparent's predecessor. -/
theorem c6_relayer_two_level_resolution_witness :
    refDetect ⟨"r1", "ref.hot.tg", "v2.ref-finance.near", true,
        some [swapCallAction [1]], ["Swapped 5 aaa.near for 6 bbb.near"], []⟩
      ⟨"tx1", [some ⟨"r1", "ref.hot.tg", "v2.ref-finance.near", true,
        some [swapCallAction [1]], ["Swapped 5 aaa.near for 6 bbb.near"], []⟩]⟩
      cBlock false = some [] ∧
    refResolveTrader
      ⟨"tx1", [some ⟨"r1", "ref.hot.tg", "v2.ref-finance.near", true,
          some [swapCallAction [1]], ["Swapped 5 aaa.near for 6 bbb.near"], []⟩,
        some ⟨"rp", "wrap-level.near", "a.near", true, none, [], ["r1"]⟩,
        some ⟨"rg", "realuser.near", "b.near", true, none, [], ["rp"]⟩]⟩
      ⟨"r1", "ref.hot.tg", "v2.ref-finance.near", true,
        some [swapCallAction [1]], ["Swapped 5 aaa.near for 6 bbb.near"], []⟩
      (refActionState
        ⟨"r1", "ref.hot.tg", "v2.ref-finance.near", true,
          some [swapCallAction [1]], ["Swapped 5 aaa.near for 6 bbb.near"], []⟩
        ⟨"tx1", [some ⟨"r1", "ref.hot.tg", "v2.ref-finance.near", true,
            some [swapCallAction [1]], ["Swapped 5 aaa.near for 6 bbb.near"], []⟩,
          some ⟨"rp", "wrap-level.near", "a.near", true, none, [], ["r1"]⟩,
          some ⟨"rg", "realuser.near", "b.near", true, none, [], ["rp"]⟩]⟩
        cBlock).trader = some "realuser.near" := by
  constructor
  · have h := (c6_relayer_two_level_resolution
      ⟨"r1", "ref.hot.tg", "v2.ref-finance.near", true,
        some [swapCallAction [1]], ["Swapped 5 aaa.near for 6 bbb.near"], []⟩
      ⟨"tx1", [some ⟨"r1", "ref.hot.tg", "v2.ref-finance.near", true,
        some [swapCallAction [1]], ["Swapped 5 aaa.near for 6 bbb.near"], []⟩]⟩
      cBlock false _ rfl rfl (by decide) (by decide) (by decide)).1 (by decide)
    rw [h.1]
    decide
  · exact (c6_relayer_two_level_resolution
      ⟨"r1", "ref.hot.tg", "v2.ref-finance.near", true,
        some [swapCallAction [1]], ["Swapped 5 aaa.near for 6 bbb.near"], []⟩
      ⟨"tx1", [some ⟨"r1", "ref.hot.tg", "v2.ref-finance.near", true,
          some [swapCallAction [1]], ["Swapped 5 aaa.near for 6 bbb.near"], []⟩,
        some ⟨"rp", "wrap-level.near", "a.near", true, none, [], ["r1"]⟩,
        some ⟨"rg", "realuser.near", "b.near", true, none, [], ["rp"]⟩]⟩
      cBlock false _ rfl rfl (by decide) (by decide) (by decide)).2.2
      ⟨"rp", "wrap-level.near", "a.near", true, none, [], ["r1"]⟩
      ⟨"rg", "realuser.near", "b.near", true, none, [], ["rp"]⟩
      (by decide) (by decide)

set_option maxRecDepth 80000 in
/-- Counterexample to C7: with an `add_liquidity` action present, a log
line that does not parse under the liquidity grammar aborts the whole
receipt — the same swap correlation that succeeds without the liquidity
action (second conjunct) emits nothing with it (first conjunct), so
processing of the rest of the receipt does not continue. -/
theorem c7_liquidity_line_aborts_receipt_cex :
    refDetect (mkRefReceipt [addLiqAction 7, swapCallAction [1]]
        ["Swapped 100 aaa.near for 200 bbb.near"])
      (mkTx (mkRefReceipt [addLiqAction 7, swapCallAction [1]]
        ["Swapped 100 aaa.near for 200 bbb.near"]))
      cBlock false = some [] ∧
    refDetect (mkRefReceipt [swapCallAction [1]]
        ["Swapped 100 aaa.near for 200 bbb.near"])
      (mkTx (mkRefReceipt [swapCallAction [1]]
        ["Swapped 100 aaa.near for 200 bbb.near"]))
      cBlock false =
      some [Event.rawPoolSwap ⟨"alice.near", 100, 5000, "tx1", "r1"⟩
          ⟨"REF-1", "aaa.near", "bbb.near", 100, 200⟩,
        Event.balanceChangeSwap ⟨"alice.near", 100, 5000, "tx1", "r1"⟩
          ⟨[("aaa.near", -100), ("bbb.near", 200)],
            [⟨"REF-1", "aaa.near", "bbb.near", 100, 200⟩]⟩ none] := by
  constructor
  · decide
  · decide

/-- C7 amended: a log line that does not parse under the liquidity grammar
makes the Ref detector return for the whole receipt: the liquidity events
already emitted stand, and no swap correlation or swap emission happens
(so every event of the receipt is a liquidity event). -/
theorem c7_liquidity_line_aborts_receipt
    (receipt : ReceiptView) (tx : TransactionView) (block : BlockView) (tn : Bool)
    (st : ActionState)
    (hst : refActionState receipt tx block = st)
    (hsucc : receipt.is_successful = true)
    (hrecv : receipt.receiver_id = (if tn then TESTNET_REF_CONTRACT_ID else REF_CONTRACT_ID))
    (hER : st.earlyReturn = true) :
    refDetect receipt tx block tn = some st.events ∧
    ∀ e ∈ st.events, e.isSwapEv = false := by
  have hns : ∀ e ∈ st.events, e.isSwapEv = false := by
    have h0 := refActionState_nonswap receipt tx block
    rw [hst] at h0
    exact h0
  exact ⟨refDetect_of_earlyReturn receipt tx block tn st hsucc hrecv hst hER, hns⟩

set_option maxRecDepth 80000 in
/-- Witness for the amended C7 at the concrete aborting receipt. -/
theorem c7_liquidity_line_aborts_receipt_witness :
    refDetect (mkRefReceipt [addLiqAction 7, swapCallAction [1]]
        ["Swapped 100 aaa.near for 200 bbb.near"])
      (mkTx (mkRefReceipt [addLiqAction 7, swapCallAction [1]]
        ["Swapped 100 aaa.near for 200 bbb.near"]))
      cBlock false =
      some (refActionState (mkRefReceipt [addLiqAction 7, swapCallAction [1]]
          ["Swapped 100 aaa.near for 200 bbb.near"])
        (mkTx (mkRefReceipt [addLiqAction 7, swapCallAction [1]]
          ["Swapped 100 aaa.near for 200 bbb.near"]))
        cBlock).events :=
  (c7_liquidity_line_aborts_receipt
    (mkRefReceipt [addLiqAction 7, swapCallAction [1]]
      ["Swapped 100 aaa.near for 200 bbb.near"])
    (mkTx (mkRefReceipt [addLiqAction 7, swapCallAction [1]]
      ["Swapped 100 aaa.near for 200 bbb.near"]))
    cBlock false _ rfl rfl (by decide) (by decide)).1

/-- C10: for an `ft_on_transfer` receipt with no receipt in the transaction
listing it as a spawned child, detection does not abort: the trader
silently stays the receipt's immediate predecessor (the token contract),
and swap events are still emitted under that trader when correlation
succeeds — unlike the relayer case, which aborts on a failed parent
lookup. -/
theorem c10_ft_on_transfer_orphan_keeps_predecessor
    (receipt : ReceiptView) (tx : TransactionView) (block : BlockView) (tn : Bool)
    (hfind : findReceiptWithChild tx receipt.receipt_id = none) :
    (refActionState receipt tx block).trader = receipt.predecessor_id ∧
    (∀ (st : ActionState) (hops : List SwapHop),
      refActionState receipt tx block = st →
      collectSwapHops receipt.logs = some hops →
      receipt.is_successful = true →
      receipt.receiver_id = (if tn then TESTNET_REF_CONTRACT_ID else REF_CONTRACT_ID) →
      st.earlyReturn = false →
      receipt.predecessor_id ≠ "ref.hot.tg" →
      st.pools.length = hops.length →
      st.pools ≠ [] →
      refDetect receipt tx block tn =
        some (st.events ++
          (correlate st.pools hops).map
            (Event.rawPoolSwap (mkCtx receipt.predecessor_id block tx.hash receipt.receipt_id)) ++
          (if (AMap.retainNonzero (balanceChangesOfHops hops)).isEmpty then []
           else [Event.balanceChangeSwap
             (mkCtx receipt.predecessor_id block tx.hash receipt.receipt_id)
             ⟨AMap.retainNonzero (balanceChangesOfHops hops), correlate st.pools hops⟩
             none]))) := by
  refine ⟨refActionState_trader receipt tx block hfind, ?_⟩
  intro st hops hst hhops hsucc hrecv hER hnot hlen hne
  have htr : st.trader = receipt.predecessor_id := by
    rw [← hst]
    exact refActionState_trader receipt tx block hfind
  have hres : refResolveTrader tx receipt st.trader = some receipt.predecessor_id := by
    unfold refResolveTrader
    rw [htr]
    simp [hnot]
  rw [refDetect_of_resolved receipt tx block tn st receipt.predecessor_id hops hsucc hrecv hst
      hER hres hhops,
    refEmission_of_match st receipt.predecessor_id hops block tx.hash receipt.receipt_id hlen hne]

set_option maxRecDepth 40000 in
/-- Witness for C10: an orphan `ft_on_transfer` receipt keeps the token
contract `token.near` as trader and still emits its swap events. -/
theorem c10_ft_on_transfer_orphan_keeps_predecessor_witness :
    (refActionState
      ⟨"r1", "token.near", "v2.ref-finance.near", true, some [ftOnTransferAction [4]],
        ["Swapped 10 aaa.near for 20 bbb.near"], []⟩
      ⟨"tx1", [some ⟨"r1", "token.near", "v2.ref-finance.near", true,
        some [ftOnTransferAction [4]], ["Swapped 10 aaa.near for 20 bbb.near"], []⟩]⟩
      cBlock).trader = "token.near" ∧
    refDetect
      ⟨"r1", "token.near", "v2.ref-finance.near", true, some [ftOnTransferAction [4]],
        ["Swapped 10 aaa.near for 20 bbb.near"], []⟩
      ⟨"tx1", [some ⟨"r1", "token.near", "v2.ref-finance.near", true,
        some [ftOnTransferAction [4]], ["Swapped 10 aaa.near for 20 bbb.near"], []⟩]⟩
      cBlock false =
      some [Event.rawPoolSwap ⟨"token.near", 100, 5000, "tx1", "r1"⟩
          ⟨"REF-4", "aaa.near", "bbb.near", 10, 20⟩,
        Event.balanceChangeSwap ⟨"token.near", 100, 5000, "tx1", "r1"⟩
          ⟨[("aaa.near", -10), ("bbb.near", 20)],
            [⟨"REF-4", "aaa.near", "bbb.near", 10, 20⟩]⟩ none] := by
  have h := c10_ft_on_transfer_orphan_keeps_predecessor
    ⟨"r1", "token.near", "v2.ref-finance.near", true, some [ftOnTransferAction [4]],
      ["Swapped 10 aaa.near for 20 bbb.near"], []⟩
    ⟨"tx1", [some ⟨"r1", "token.near", "v2.ref-finance.near", true,
      some [ftOnTransferAction [4]], ["Swapped 10 aaa.near for 20 bbb.near"], []⟩]⟩
    cBlock false (by decide)
  refine ⟨h.1, ?_⟩
  rw [h.2 _ [⟨"aaa.near", "bbb.near", 10, 20⟩] rfl (by decide) rfl rfl (by decide) (by decide)
    (by decide) (by decide)]
  decide

lemma wrapI128_eq_self (z : Int) (h1 : -(2 ^ 127) ≤ z) (h2 : z < 2 ^ 127) :
    wrapI128 z = z := by
  unfold wrapI128
  have e1 : (2 : Int) ^ 127 = 170141183460469231731687303715884105728 := by norm_num
  have e2 : (2 : Int) ^ 128 = 340282366920938463463374607431768211456 := by norm_num
  rw [e1, e2] at *
  omega

lemma u128AsI128_high (a : Nat) (h : 2 ^ 127 ≤ a) :
    u128AsI128 a = (a : Int) - 2 ^ 128 := by
  unfold u128AsI128
  rw [if_neg]
  intro hcon
  omega

lemma u128AsI128_low (a : Nat) (h : a < 2 ^ 127) : u128AsI128 a = (a : Int) := by
  unfold u128AsI128
  rw [if_pos h]

lemma AMap.get?_nil (k : String) : AMap.get? [] k = none := rfl

lemma AMap.set_nil (k : String) (v : Int) : AMap.set [] k v = [(k, v)] := rfl

lemma AMap.get?_cons_ne (k' : String) (v : Int) (rest : AMap) (k : String)
    (h : (k' == k) = false) : AMap.get? ((k', v) :: rest) k = AMap.get? rest k := by
  simp [AMap.get?, h]

lemma AMap.set_cons_ne (k' : String) (v' : Int) (rest : AMap) (k : String) (v : Int)
    (h : (k' == k) = false) :
    AMap.set ((k', v') :: rest) k v = (k', v') :: AMap.set rest k v := by
  simp [AMap.set, h]

lemma AMap.addDelta_nil (k : String) (d : Int) (h1 : -(2 ^ 127) ≤ d) (h2 : d < 2 ^ 127) :
    AMap.addDelta [] k d = [(k, d)] := by
  unfold AMap.addDelta
  rw [AMap.get?_nil]
  simp only [Option.getD_none, zero_add]
  rw [wrapI128_eq_self d h1 h2, AMap.set_nil]


set_option maxRecDepth 1000000 in
/-- Counterexample to C1: in the Ref adapter a hop amount of
`2 ^ 127 + 5` (above `i128::MAX`) is not rejected: the hop is accumulated
into the delta map with its two's-complement value `2 ^ 127 - 5`
(sign-flipped), and both the `RawPoolSwap` and the `BalanceChangeSwap` are
emitted. -/
theorem c1_overflow_wraps_not_rejected_cex :
    refDetect (mkRefReceipt [swapCallAction [1]]
        ["Swapped 170141183460469231731687303715884105733 intel.tkn.near for 5 wrap.near"])
      (mkTx (mkRefReceipt [swapCallAction [1]]
        ["Swapped 170141183460469231731687303715884105733 intel.tkn.near for 5 wrap.near"]))
      cBlock false =
      some [Event.rawPoolSwap ⟨"alice.near", 100, 5000, "tx1", "r1"⟩
          ⟨"REF-1", "intel.tkn.near", "wrap.near",
            170141183460469231731687303715884105733, 5⟩,
        Event.balanceChangeSwap ⟨"alice.near", 100, 5000, "tx1", "r1"⟩
          ⟨[("intel.tkn.near", 170141183460469231731687303715884105723), ("wrap.near", 5)],
            [⟨"REF-1", "intel.tkn.near", "wrap.near",
              170141183460469231731687303715884105733, 5⟩]⟩ none] ∧
    ¬ ((170141183460469231731687303715884105733 : Nat) ≤ 2 ^ 127 - 1) := by
  constructor
  · decide
  · decide

/-- C1 amended: only the Intear adapter checks each unsigned 128-bit
amount with `i128::try_from` and, on overflow, excludes the hop from the
delta map (still emitting the `RawPoolSwap`); the Ref and RefDcl adapters
instead use a wrapping `as i128` cast, so an amount above `i128::MAX` is
accumulated as its two's-complement value `2 ^ 128 - amount`
(sign-flipped) rather than rejected. -/
theorem c1_overflow_only_checked_in_intear
    (rc : LogReceiptView PlachLogView) (txh : String) (block : BlockView)
    (e : DexEventView PlachSwapEvent) (user tin tout : String)
    (hsucc : rc.is_successful = true)
    (hrecv : rc.receiver_id = "dex.intear.near")
    (hlogs : rc.parsed_logs = [⟨some e, none, none, none⟩])
    (hev : e.event = "dex_event") (hstd : e.standard = "inteardex")
    (hin : e.inner_event = "swap") (hdex : e.dex_id = PLACH_DEX_ID)
    (huser : e.user = some user)
    (hain : e.data.request.asset_in = AssetId.nep141 tin)
    (haout : e.data.request.asset_out = AssetId.nep141 tout)
    (hov : 2 ^ 127 ≤ e.data.amount_in) :
    plachDetect rc txh block false =
      [Event.rawPoolSwap (mkCtx user block txh rc.receipt_id)
        ⟨create_plach_pool_id e.data.pool_id, tin, tout,
          e.data.amount_in, e.data.amount_out⟩] ∧
    (∀ (t t' : String) (a aout : Nat), t ≠ t' →
      2 ^ 127 < a → a < 2 ^ 128 → aout < 2 ^ 127 →
      balanceChangesOfHops [⟨t, t', a, aout⟩] =
        [(t, (2 ^ 128 : Int) - (a : Int)), (t', (aout : Int))]) ∧
    (∀ (t t' : String) (a aout : Nat), t ≠ t' →
      2 ^ 127 < a → a < 2 ^ 128 → aout < 2 ^ 127 →
      fromIterPairs [(t, wrapI128 (-(u128AsI128 a))), (t', u128AsI128 aout)] =
        [(t, (2 ^ 128 : Int) - (a : Int)), (t', (aout : Int))]) := by
  refine ⟨?_, ?_, ?_⟩
  · have hswap : plachSwapBranch ⟨some e, none, none, none⟩ block txh rc.receipt_id =
        ([Event.rawPoolSwap (mkCtx user block txh rc.receipt_id)
          ⟨create_plach_pool_id e.data.pool_id, tin, tout,
            e.data.amount_in, e.data.amount_out⟩], true) := by
      unfold plachSwapBranch
      simp only [plachGuard, hev, hstd, hin, hdex, beq_self_eq_true, Bool.and_self, if_true,
        huser, hain, haout, plachAssetToken?]
      rw [if_pos hov]
    have hproc : plachProcessLog ⟨some e, none, none, none⟩ block txh rc.receipt_id =
        [Event.rawPoolSwap (mkCtx user block txh rc.receipt_id)
          ⟨create_plach_pool_id e.data.pool_id, tin, tout,
            e.data.amount_in, e.data.amount_out⟩] := by
      unfold plachProcessLog
      rw [hswap]
      simp
    unfold plachDetect
    rw [hrecv, hsucc, hlogs]
    simp [INTEAR_CONTRACT_ID, hproc]
  · intro t t' a aout hne h1 h2 h3
    have hcast : -(u128AsI128 a) = (2 ^ 128 : Int) - (a : Int) := by
      rw [u128AsI128_high a (le_of_lt h1)]
      ring
    have hb : (t == t') = false := beq_eq_false_iff_ne.mpr hne
    have hstep1 : AMap.addDelta [] t (-(u128AsI128 a)) =
        [(t, (2 ^ 128 : Int) - (a : Int))] := by
      rw [hcast]
      exact AMap.addDelta_nil t _ (by omega) (by omega)
    have hstep2 : AMap.addDelta [(t, (2 ^ 128 : Int) - (a : Int))] t' (u128AsI128 aout) =
        [(t, (2 ^ 128 : Int) - (a : Int)), (t', (aout : Int))] := by
      unfold AMap.addDelta
      rw [AMap.get?_cons_ne t _ [] t' hb, AMap.get?_nil]
      simp only [Option.getD_none, zero_add, u128AsI128_low aout h3]
      rw [wrapI128_eq_self _ (by omega) (by omega),
        AMap.set_cons_ne t _ [] t' _ hb, AMap.set_nil]
    unfold balanceChangesOfHops
    simp only [List.foldl_cons, List.foldl_nil]
    rw [hstep1, hstep2]
  · intro t t' a aout hne h1 h2 h3
    have hcast : -(u128AsI128 a) = (2 ^ 128 : Int) - (a : Int) := by
      rw [u128AsI128_high a (le_of_lt h1)]
      ring
    have hb : (t == t') = false := beq_eq_false_iff_ne.mpr hne
    unfold fromIterPairs
    simp only [List.foldl_cons, List.foldl_nil]
    rw [AMap.set_nil, AMap.set_cons_ne t _ [] t' _ hb, AMap.set_nil, hcast,
      wrapI128_eq_self _ (by omega) (by omega), u128AsI128_low aout h3]

set_option maxRecDepth 40000 in
/-- Witness for the amended C1: a Plach swap with `amount_in = 2 ^ 127`
emits only the raw hop (the delta map is skipped), while the Ref/RefDcl
wrapping casts turn `2 ^ 127 + 5` into the positive entry `2 ^ 127 - 5`. -/
theorem c1_overflow_only_checked_in_intear_witness :
    plachDetect
      ⟨"r1", "dex.intear.near", true,
        [⟨some ⟨"inteardex", "1.0.0", "dex_event", "slimedragon.near/xyk", "intear-dex",
          "1.0.0", "swap", none, some "user.near",
          ⟨7, ⟨"m", AssetId.nep141 "aaa.near", AssetId.nep141 "bbb.near",
            SwapRequestAmount.exactIn 170141183460469231731687303715884105728⟩,
            170141183460469231731687303715884105728, 5⟩⟩, none, none, none⟩]⟩
      "tx1" cBlock false =
      [Event.rawPoolSwap ⟨"user.near", 100, 5000, "tx1", "r1"⟩
        ⟨"INTEARPLACH-7", "aaa.near", "bbb.near",
          170141183460469231731687303715884105728, 5⟩] ∧
    balanceChangesOfHops
        [⟨"aaa.near", "bbb.near", 170141183460469231731687303715884105733, 7⟩] =
      [("aaa.near", (170141183460469231731687303715884105723 : Int)), ("bbb.near", 7)] ∧
    fromIterPairs
        [("aaa.near", wrapI128 (-(u128AsI128 170141183460469231731687303715884105733))),
         ("bbb.near", u128AsI128 7)] =
      [("aaa.near", (170141183460469231731687303715884105723 : Int)), ("bbb.near", 7)] := by
  have h := c1_overflow_only_checked_in_intear
    ⟨"r1", "dex.intear.near", true,
      [⟨some ⟨"inteardex", "1.0.0", "dex_event", "slimedragon.near/xyk", "intear-dex",
        "1.0.0", "swap", none, some "user.near",
        ⟨7, ⟨"m", AssetId.nep141 "aaa.near", AssetId.nep141 "bbb.near",
          SwapRequestAmount.exactIn 170141183460469231731687303715884105728⟩,
          170141183460469231731687303715884105728, 5⟩⟩, none, none, none⟩]⟩
    "tx1" cBlock
    ⟨"inteardex", "1.0.0", "dex_event", "slimedragon.near/xyk", "intear-dex",
      "1.0.0", "swap", none, some "user.near",
      ⟨7, ⟨"m", AssetId.nep141 "aaa.near", AssetId.nep141 "bbb.near",
        SwapRequestAmount.exactIn 170141183460469231731687303715884105728⟩,
        170141183460469231731687303715884105728, 5⟩⟩
    "user.near" "aaa.near" "bbb.near"
    rfl rfl rfl rfl rfl rfl rfl rfl rfl rfl (by norm_num)
  refine ⟨?_, ?_, ?_⟩
  · rw [h.1]
    decide
  · have h2 := h.2.1 "aaa.near" "bbb.near" 170141183460469231731687303715884105733 7
      (by decide) (by norm_num) (by norm_num) (by norm_num)
    rw [h2]
    norm_num
  · have h3 := h.2.2 "aaa.near" "bbb.near" 170141183460469231731687303715884105733 7
      (by decide) (by norm_num) (by norm_num) (by norm_num)
    rw [h3]
    norm_num

lemma retainNonzero_mem (m : AMap) (kv : String × Int)
    (h : kv ∈ AMap.retainNonzero m) : kv.2 ≠ 0 := by
  unfold AMap.retainNonzero at h
  rcases List.mem_filter.mp h with ⟨_, hkv⟩
  simpa using hkv

set_option maxRecDepth 40000 in
/-- Counterexample to C3: the RefDcl adapter passes `on_balance_change_swap`
a map built by direct insertion without zero-pruning, so a swap event with
`amount_in = 0` produces a zero-valued entry for the in-token. -/
theorem c3_zero_entry_not_pruned_cex :
    refdclDetect
      ⟨"r1", "dclv2.ref-labs.near", true,
        [some ⟨"dcl.ref", "1.0.0", "swap",
          [⟨0, 50, "p5", 0, "bob.near", "aaa.near", "bbb.near", 0⟩]⟩]⟩
      "tx1" cBlock false =
      [Event.rawPoolSwap ⟨"bob.near", 100, 5000, "tx1", "r1"⟩
        ⟨"REFDCL-p5", "aaa.near", "bbb.near", 0, 50⟩,
      Event.balanceChangeSwap ⟨"bob.near", 100, 5000, "tx1", "r1"⟩
        ⟨[("aaa.near", 0), ("bbb.near", 50)],
          [⟨"REFDCL-p5", "aaa.near", "bbb.near", 0, 50⟩]⟩ none] ∧
    AMap.get? [("aaa.near", 0), ("bbb.near", 50)] "aaa.near" = some 0 := by
  constructor
  · decide
  · decide

/-- C3 amended: in the Ref adapter every `BalanceChangeSwap` passed to
`on_balance_change_swap` has no zero-valued entry and equals the
zero-pruned per-token signed sum of its `pool_swaps` legs (computed, like
the source, in wrapping `i128` arithmetic on the wrapping casts of the leg
amounts); the log-native adapters (RefDcl among them) instead build the
two-entry map by direct insertion, without pruning zeros or summing
duplicate-token legs. -/
theorem c3_ref_balance_changes_invariant
    (receipt : ReceiptView) (tx : TransactionView) (block : BlockView) (tn : Bool)
    (evs : List Event)
    (h : refDetect receipt tx block tn = some evs) :
    ∀ (ctx : TradeContext) (bcs : BalanceChangeSwap) (r : Option String),
      Event.balanceChangeSwap ctx bcs r ∈ evs →
      (∀ kv ∈ bcs.balance_changes, kv.2 ≠ 0) ∧
      bcs.balance_changes = AMap.retainNonzero (signedSumOfLegs bcs.pool_swaps) := by
  intro ctx bcs r hmem
  have hns := refActionState_nonswap receipt tx block
  have hcontra : Event.balanceChangeSwap ctx bcs r ∈
      (refActionState receipt tx block).events → False := by
    intro hin
    have := hns _ hin
    simp [Event.isSwapEv] at this
  cases hg : (receipt.is_successful &&
      (receipt.receiver_id == if tn then TESTNET_REF_CONTRACT_ID else REF_CONTRACT_ID)) with
  | false =>
    unfold refDetect at h
    dsimp only at h
    rw [hg] at h
    simp only [Bool.false_eq_true, if_false, Option.some.injEq] at h
    subst h
    simp at hmem
  | true =>
    rw [Bool.and_eq_true] at hg
    rw [refDetect_guard receipt tx block tn hg.1 (eq_of_beq hg.2)] at h
    cases hER : (refActionState receipt tx block).earlyReturn with
    | true =>
      rw [hER] at h
      simp only [if_true, Option.some.injEq] at h
      subst h
      exact absurd hmem hcontra
    | false =>
      rw [hER] at h
      simp only [Bool.false_eq_true, if_false] at h
      cases hres : refResolveTrader tx receipt (refActionState receipt tx block).trader with
      | none =>
        rw [hres] at h
        simp only [Option.some.injEq] at h
        subst h
        exact absurd hmem hcontra
      | some trader =>
        rw [hres] at h
        cases hhops : collectSwapHops receipt.logs with
        | none => rw [hhops] at h; exact absurd h (by simp)
        | some hops =>
          rw [hhops] at h
          simp only [Option.some.injEq] at h
          subst h
          unfold refEmission at hmem
          dsimp only at hmem
          by_cases hlen : (refActionState receipt tx block).pools.length = hops.length
          · rw [if_pos hlen] at hmem
            cases hE : (correlate (refActionState receipt tx block).pools hops).isEmpty with
            | true =>
              rw [hE] at hmem
              simp only [if_true] at hmem
              exact absurd hmem hcontra
            | false =>
              rw [hE] at hmem
              simp only [Bool.false_eq_true, if_false, List.mem_append, List.mem_map] at hmem
              rcases hmem with (hmem | ⟨x, _, hxe⟩) | hmem
              · exact absurd hmem hcontra
              · exact Event.noConfusion hxe
              · by_cases hδ : (AMap.retainNonzero (balanceChangesOfHops hops)).isEmpty
                · rw [if_pos hδ] at hmem
                  simp at hmem
                · rw [if_neg hδ] at hmem
                  simp only [List.mem_singleton, Event.balanceChangeSwap.injEq] at hmem
                  obtain ⟨-, hbcs, -⟩ := hmem
                  subst hbcs
                  constructor
                  · exact fun kv hkv => retainNonzero_mem _ kv hkv
                  · simp only
                    rw [signedSum_correlate _ _ hlen]
          · rw [if_neg hlen] at hmem
            exact absurd hmem hcontra

set_option maxRecDepth 40000 in
/-- Witness for the amended C3 at a one-hop Ref receipt. -/
theorem c3_ref_balance_changes_invariant_witness :
    (∀ kv ∈ [(("ccc.near" : String), (-11 : Int)), ("ddd.near", 22)], kv.2 ≠ 0) ∧
    [(("ccc.near" : String), (-11 : Int)), ("ddd.near", 22)] =
      AMap.retainNonzero (signedSumOfLegs [⟨"REF-9", "ccc.near", "ddd.near", 11, 22⟩]) :=
  c3_ref_balance_changes_invariant
    (mkRefReceipt [swapCallAction [9]] ["Swapped 11 ccc.near for 22 ddd.near"])
    (mkTx (mkRefReceipt [swapCallAction [9]] ["Swapped 11 ccc.near for 22 ddd.near"]))
    cBlock false
    [Event.rawPoolSwap ⟨"alice.near", 100, 5000, "tx1", "r1"⟩
        ⟨"REF-9", "ccc.near", "ddd.near", 11, 22⟩,
      Event.balanceChangeSwap ⟨"alice.near", 100, 5000, "tx1", "r1"⟩
        ⟨[("ccc.near", -11), ("ddd.near", 22)],
          [⟨"REF-9", "ccc.near", "ddd.near", 11, 22⟩]⟩ none]
    (by decide)
    ⟨"alice.near", 100, 5000, "tx1", "r1"⟩
    ⟨[("ccc.near", -11), ("ddd.near", 22)], [⟨"REF-9", "ccc.near", "ddd.near", 11, 22⟩]⟩
    none
    (by decide)
